import Mathlib

/-!
# EfficientGridMap: toroidal grid layers and the layered circular grid map

A shallow embedding of `include/efficient_grid_map.h` (classes `GridLayer<T>` and
`CircularGridMap<T>`) and of the scenario of `test/efficient_grid_map_test.cpp`.

Conventions of the embedding.

* `int32_t` values are integers (`Int`) in `[-2^31, 2^31)`, `uint32_t` values are naturals
  (`Nat`) below `2^32`.  Every C++ conversion between the two is written out with
  `toI32` / `toU32`.  Signed arithmetic that leaves the `int32_t` range wraps around
  (two's complement).
* In `e % dim` with `e : int32_t` and `dim : uint32_t` the usual arithmetic conversions
  turn `e` into a `uint32_t` before the remainder is taken; the remainder is unsigned.
* `Eigen::Matrix<T, Dynamic, Dynamic>` is a pair of dimensions with a coefficient function;
  the cells of the matrix are the coefficients at `0 ≤ row < rows`, `0 ≤ col < cols`.
* `std::unordered_map<std::string, std::unique_ptr<GridLayer<T>>>` is a partial function from
  names to layers.
* `double` world coordinates are values of a type with the operations the map uses
  (`WorldScalar`).
-/

namespace EfficientGridMap

/-! ## Machine integers -/

/-- Value of an integer after conversion to `uint32_t`: reduction modulo `2^32`. -/
def toU32 (x : Int) : Nat := (x % 4294967296).toNat

/-- Value of an integer after conversion to `int32_t`: two's complement wrap-around. -/
def toI32 (x : Int) : Int :=
  if x % 4294967296 < 2147483648 then x % 4294967296 else x % 4294967296 - 4294967296

/-- The statement pair `int32_t x = e % dim; if (x < 0) x += dim;` for an `int32_t`
expression `e` and a `uint32_t` dimension `dim`.  The operand `e` is converted to
`uint32_t` by `%`, the unsigned remainder is stored in the `int32_t` variable, and
`x += dim` is again computed in `uint32_t` and stored back. -/
def wrapIndex (e : Int) (dim : Nat) : Int :=
  let x : Int := toI32 (toU32 e % dim : Nat)
  if x < 0 then toI32 ((toU32 x + dim : Nat) : Int) else x

/-! ## Dense matrix storage -/

/-- Dense matrix `Eigen::Matrix<T, Dynamic, Dynamic>`: `coeff row col` is the coefficient
at `(row, col)`; indices are signed (`Eigen::Index`). -/
structure EigenMatrix (T : Type) where
  rows : Nat
  cols : Nat
  coeff : Int → Int → T

namespace EigenMatrix

variable {T : Type}

/-- `Matrix::Constant(rows, cols, value)`. -/
def Constant (rows cols : Nat) (value : T) : EigenMatrix T :=
  { rows := rows, cols := cols, coeff := fun _ _ => value }

/-- `m(row, col) = value`. -/
def setCoeff (m : EigenMatrix T) (row col : Int) (value : T) : EigenMatrix T :=
  { m with coeff := fun i j => if i = row ∧ j = col then value else m.coeff i j }

/-- `m.row(row).setConstant(value)`. -/
def rowSetConstant (m : EigenMatrix T) (row : Int) (value : T) : EigenMatrix T :=
  { m with coeff := fun i j => if i = row then value else m.coeff i j }

/-- `m.col(col).setConstant(value)`. -/
def colSetConstant (m : EigenMatrix T) (col : Int) (value : T) : EigenMatrix T :=
  { m with coeff := fun i j => if j = col then value else m.coeff i j }

/-- `m.setConstant(value)`. -/
def setConstant (m : EigenMatrix T) (value : T) : EigenMatrix T :=
  { m with coeff := fun _ _ => value }

/-- Index check of `m(row, col)` (Eigen asserts
`row >= 0 && row < rows() && col >= 0 && col < cols()`): the coefficient when the index is
a cell of the matrix, `none` otherwise. -/
def coeffChecked (m : EigenMatrix T) (row col : Int) : Option T :=
  if 0 ≤ row ∧ row < m.rows ∧ 0 ≤ col ∧ col < m.cols then some (m.coeff row col) else none

end EigenMatrix

/-! ## GridLayer -/

/-- Data members of `GridLayer<T>`. -/
structure GridLayer (T : Type) where
  width_ : Nat
  height_ : Nat
  data_ : EigenMatrix T
  logical_offset_row_ : Int
  logical_offset_col_ : Int
  prev_logical_offset_row_ : Int
  prev_logical_offset_col_ : Int
  initial_value_ : T

namespace GridLayer

variable {T : Type}

/-- Constructor `GridLayer(width, height, initial_value)`. -/
def new (width height : Nat) (initial_value : T) : GridLayer T :=
  { width_ := width
    height_ := height
    data_ := EigenMatrix.Constant height width initial_value
    logical_offset_row_ := 0
    logical_offset_col_ := 0
    prev_logical_offset_row_ := 0
    prev_logical_offset_col_ := 0
    initial_value_ := initial_value }

/-- `logicalToPhysical(logical_row, logical_col)`; the result is a pair of `uint32_t`. -/
def logicalToPhysical (l : GridLayer T) (logical_row logical_col : Int) : Nat × Nat :=
  let physical_row : Int := wrapIndex (toI32 (logical_row + l.logical_offset_row_)) l.height_
  let physical_col : Int := wrapIndex (toI32 (logical_col + l.logical_offset_col_)) l.width_
  (toU32 physical_row, toU32 physical_col)

/-- `physicalToLogical(physical_row, physical_col)`; the result is a pair of `int32_t`. -/
def physicalToLogical (l : GridLayer T) (physical_row physical_col : Nat) : Int × Int :=
  let logical_row : Int :=
    wrapIndex (toI32 (toI32 (physical_row : Int) - l.logical_offset_row_)) l.height_
  let logical_col : Int :=
    wrapIndex (toI32 (toI32 (physical_col : Int) - l.logical_offset_col_)) l.width_
  (logical_row, logical_col)

/-- The loop `for (int32_t r = lo; r < hi; ++r) { int32_t p = r % height_;
if (p < 0) p += height_; data_.row(p).setConstant(initial_value_); }`. -/
def clearRows (data : EigenMatrix T) (height : Nat) (value : T) (lo hi : Int) : EigenMatrix T :=
  (List.range (hi - lo).toNat).foldl
    (fun m i => m.rowSetConstant (wrapIndex (lo + (i : Int)) height) value) data

/-- The loop `for (int32_t c = lo; c < hi; ++c) { int32_t p = c % width_;
if (p < 0) p += width_; data_.col(p).setConstant(initial_value_); }`. -/
def clearCols (data : EigenMatrix T) (width : Nat) (value : T) (lo hi : Int) : EigenMatrix T :=
  (List.range (hi - lo).toNat).foldl
    (fun m i => m.colSetConstant (wrapIndex (lo + (i : Int)) width) value) data

/-- `initializeNewRegion()`. -/
def initializeNewRegion (l : GridLayer T) : GridLayer T :=
  let row_diff : Int := toI32 (l.logical_offset_row_ - l.prev_logical_offset_row_)
  let col_diff : Int := toI32 (l.logical_offset_col_ - l.prev_logical_offset_col_)
  let data1 : EigenMatrix T :=
    if row_diff ≠ 0 then
      if row_diff > 0 then
        clearRows l.data_ l.height_ l.initial_value_ l.prev_logical_offset_row_
          (toI32 (l.prev_logical_offset_row_ + row_diff))
      else
        let abs_row_diff : Int := toI32 (-row_diff)
        clearRows l.data_ l.height_ l.initial_value_ l.logical_offset_row_
          (toI32 (l.logical_offset_row_ + abs_row_diff))
    else l.data_
  let data2 : EigenMatrix T :=
    if col_diff ≠ 0 then
      if col_diff > 0 then
        clearCols data1 l.width_ l.initial_value_ l.prev_logical_offset_col_
          (toI32 (l.prev_logical_offset_col_ + col_diff))
      else
        let abs_col_diff : Int := toI32 (-col_diff)
        clearCols data1 l.width_ l.initial_value_ l.logical_offset_col_
          (toI32 (l.logical_offset_col_ + abs_col_diff))
    else data1
  { l with data_ := data2 }

/-- `moveLogicalOrigin(d_row, d_col)`. -/
def moveLogicalOrigin (l : GridLayer T) (d_row d_col : Int) : GridLayer T :=
  initializeNewRegion
    { l with
      prev_logical_offset_row_ := l.logical_offset_row_
      prev_logical_offset_col_ := l.logical_offset_col_
      logical_offset_row_ := wrapIndex (toI32 (l.logical_offset_row_ + d_row)) l.height_
      logical_offset_col_ := wrapIndex (toI32 (l.logical_offset_col_ + d_col)) l.width_ }

/-- `getValue(logical_row, logical_col)`. -/
def getValue (l : GridLayer T) (logical_row logical_col : Int) : T :=
  let p := l.logicalToPhysical logical_row logical_col
  l.data_.coeff p.1 p.2

/-- `setValue(logical_row, logical_col, value)`. -/
def setValue (l : GridLayer T) (logical_row logical_col : Int) (value : T) : GridLayer T :=
  let p := l.logicalToPhysical logical_row logical_col
  { l with data_ := l.data_.setCoeff p.1 p.2 value }

/-- `reset(value)`. -/
def reset (l : GridLayer T) (value : T) : GridLayer T :=
  { l with data_ := l.data_.setConstant value, initial_value_ := value }

/-- `getView(center_row, center_col, view_height, view_width)`.  The view starts as
`Matrix::Zero(view_height, view_width)`; in `center_row - static_cast<int32_t>(view_height/2) + y`
the `int32_t` difference is converted to `uint32_t` for the addition of `y`, and the sum is
stored in an `int32_t`. -/
def getView [Zero T] (l : GridLayer T) (center_row center_col : Int)
    (view_height view_width : Nat) : EigenMatrix T :=
  (List.range view_height).foldl
    (fun view y =>
      (List.range view_width).foldl
        (fun view x =>
          let logical_row : Int :=
            toI32 ((toU32 (toI32 (center_row - toI32 ((view_height / 2 : Nat) : Int))) + y : Nat) : Int)
          let logical_col : Int :=
            toI32 ((toU32 (toI32 (center_col - toI32 ((view_width / 2 : Nat) : Int))) + x : Nat) : Int)
          view.setCoeff (y : Int) (x : Int) (l.getValue logical_row logical_col))
        view)
    (EigenMatrix.Constant view_height view_width 0)

end GridLayer

/-- A call of a public member function of `GridLayer<T>`. -/
inductive LayerCall (T : Type) where
  | moveLogicalOrigin (d_row d_col : Int)
  | setValue (logical_row logical_col : Int) (value : T)
  | reset (value : T)
  | getView (center_row center_col : Int) (view_height view_width : Nat)
  | getValue (logical_row logical_col : Int)

/-- State of the layer after a call; `getView` and `getValue` are `const` member functions
and leave the layer as it is. -/
def LayerCall.run {T : Type} (l : GridLayer T) : LayerCall T → GridLayer T
  | .moveLogicalOrigin d_row d_col => l.moveLogicalOrigin d_row d_col
  | .setValue logical_row logical_col value => l.setValue logical_row logical_col value
  | .reset value => l.reset value
  | .getView _ _ _ _ => l
  | .getValue _ _ => l

/-! ## CircularGridMap -/

/-- Operations on `double` that `CircularGridMap` uses: `0.0`, subtraction, `x += d` for an
`int32_t` `d`, and `static_cast<int32_t>(x)`. -/
class WorldScalar (D : Type) extends Zero D, Sub D where
  addInt32 : D → Int → D
  toInt32 : D → Int

/-- World coordinates as exact rationals: the operations agree with the `double` ones
wherever those are exact (in particular on integers of small magnitude);
`static_cast<int32_t>` truncates toward zero (a value outside the `int32_t` range, for
which the cast is undefined in C++, is left as its truncation). -/
instance : WorldScalar ℚ where
  addInt32 x d := x + (d : ℚ)
  toInt32 x := Int.tdiv x.num (x.den : Int)

/-- Data members of `CircularGridMap<T>`; `layers_ name` is the layer stored under `name`,
`none` when `layers_.find(name) == layers_.end()`. -/
structure CircularGridMap (D T : Type) where
  width_ : Nat
  height_ : Nat
  world_center_x_ : D
  world_center_y_ : D
  layers_ : String → Option (GridLayer T)
  initial_value_ : T

namespace CircularGridMap

variable {D T : Type}

/-- `addLayer(layer_name)`. -/
def addLayer (m : CircularGridMap D T) (layer_name : String) : CircularGridMap D T :=
  match m.layers_ layer_name with
  | none =>
    { m with
      layers_ := fun name =>
        if name = layer_name then some (GridLayer.new m.width_ m.height_ m.initial_value_)
        else m.layers_ name }
  | some _ => m

/-- Constructor `CircularGridMap(width, height, initial_value)`. -/
def new [WorldScalar D] (width height : Nat) (initial_value : T) : CircularGridMap D T :=
  addLayer
    { width_ := width
      height_ := height
      world_center_x_ := 0
      world_center_y_ := 0
      layers_ := fun _ => none
      initial_value_ := initial_value }
    "default"

/-- `removeLayer(layer_name)`. -/
def removeLayer (m : CircularGridMap D T) (layer_name : String) : CircularGridMap D T :=
  { m with layers_ := fun name => if name = layer_name then none else m.layers_ name }

/-- `moveCenter(dx, dy)`. -/
def moveCenter [WorldScalar D] (m : CircularGridMap D T) (dx dy : Int) : CircularGridMap D T :=
  let d_row : Int := dx
  let d_col : Int := dy
  { m with
    world_center_x_ := WorldScalar.addInt32 m.world_center_x_ dx
    world_center_y_ := WorldScalar.addInt32 m.world_center_y_ dy
    layers_ := fun name => (m.layers_ name).map (fun layer => layer.moveLogicalOrigin d_row d_col) }

/-- `getCellValue(world_x, world_y, layer_name)`; `T()` is the zero of `T`. -/
def getCellValue [WorldScalar D] [Zero T] (m : CircularGridMap D T) (world_x world_y : D)
    (layer_name : String) : T :=
  let rel_x : D := world_x - m.world_center_x_
  let rel_y : D := world_y - m.world_center_y_
  let logical_row : Int := WorldScalar.toInt32 rel_y
  let logical_col : Int := WorldScalar.toInt32 rel_x
  match m.layers_ layer_name with
  | some layer => layer.getValue logical_row logical_col
  | none => 0

/-- `setCellValue(world_x, world_y, value, layer_name)`. -/
def setCellValue [WorldScalar D] (m : CircularGridMap D T) (world_x world_y : D) (value : T)
    (layer_name : String) : CircularGridMap D T :=
  let rel_x : D := world_x - m.world_center_x_
  let rel_y : D := world_y - m.world_center_y_
  let logical_row : Int := WorldScalar.toInt32 rel_y
  let logical_col : Int := WorldScalar.toInt32 rel_x
  match m.layers_ layer_name with
  | some layer =>
    { m with
      layers_ := fun name =>
        if name = layer_name then some (layer.setValue logical_row logical_col value)
        else m.layers_ name }
  | none => m

/-- `getView(view_width, view_height, layer_name)`. -/
def getView [Zero T] (m : CircularGridMap D T) (view_width view_height : Nat)
    (layer_name : String) : EigenMatrix T :=
  let center_row : Int := 0
  let center_col : Int := 0
  match m.layers_ layer_name with
  | some layer => layer.getView center_row center_col view_height view_width
  | none => EigenMatrix.Constant view_height view_width 0

/-- `resetLayer(layer_name, value)`. -/
def resetLayer (m : CircularGridMap D T) (layer_name : String) (value : T) :
    CircularGridMap D T :=
  match m.layers_ layer_name with
  | some layer =>
    { m with
      layers_ := fun name => if name = layer_name then some (layer.reset value) else m.layers_ name }
  | none => m

end CircularGridMap

/-! ## The scenario of `efficient_grid_map_test.cpp` -/

/-- Lines 7-15 of `main`: a 10x10 `CircularGridMap<float>` with the layers `obstacle` and
`navigation` added, `setCellValue(0.0, 0.0, 1.0)` and
`setCellValue(2.0, 2.0, 100.0, "obstacle")`. -/
def testMapBeforeMove : CircularGridMap ℚ ℚ :=
  ((((CircularGridMap.new 10 10 0).addLayer "obstacle").addLayer "navigation").setCellValue
    0 0 1 "default").setCellValue 2 2 100 "obstacle"

/-- Line 23 of `main`: `grid_map.moveCenter(3, 2)`. -/
def testMapAfterMove : CircularGridMap ℚ ℚ :=
  testMapBeforeMove.moveCenter 3 2

/-! ## Reference definitions and states used in the statements -/

/-- Reference mapping in the words of the specification:
`physical = (logical + offset) mod dimension` with the non-negative remainder. -/
def logicalToPhysicalSpec {T : Type} (l : GridLayer T) (logical_row logical_col : Int) :
    Int × Int :=
  ((logical_row + l.logical_offset_row_) % (l.height_ : Int),
   (logical_col + l.logical_offset_col_) % (l.width_ : Int))

/-- The offset of the layer lies in `[0, height) x [0, width)`. -/
def OffsetInRange {T : Type} (l : GridLayer T) : Prop :=
  0 ≤ l.logical_offset_row_ ∧ l.logical_offset_row_ < l.height_ ∧
  0 ≤ l.logical_offset_col_ ∧ l.logical_offset_col_ < l.width_

instance {T : Type} (l : GridLayer T) : Decidable (OffsetInRange l) := by
  unfold OffsetInRange
  infer_instance

/-- Swept band of one axis in the words of the specification: for `d > 0` the `d` physical
indices `(prev_offset + i) mod dim`, `0 ≤ i < d`; for `d < 0` the `|d|` physical indices
`(new_offset + i) mod dim`, `0 ≤ i < |d|`; empty for `d = 0`. -/
def sweptBand (dim : Nat) (prev_offset new_offset d : Int) : List Int :=
  if d > 0 then (List.range d.toNat).map (fun i => (prev_offset + (i : Int)) % (dim : Int))
  else (List.range (-d).toNat).map (fun i => (new_offset + (i : Int)) % (dim : Int))

/-- A 10x10 layer of integers with fill value 0 after `moveLogicalOrigin(8, 0)`:
its offset is `(8, 0)`. -/
def layerAtRowOffset8 : GridLayer Int :=
  (GridLayer.new 10 10 0).moveLogicalOrigin 8 0

/-- Rounding toward zero in the words of the specification: the floor of a non-negative
value and the ceiling of a negative one. -/
def truncTowardZero (q : ℚ) : Int := if 0 ≤ q then ⌊q⌋ else ⌈q⌉

/-! ## Lemmas -/

open GridLayer

variable {T : Type}

theorem toU32_lt (x : Int) : toU32 x < 4294967296 := by
  unfold toU32; omega

theorem toU32_wrapIndex_lt (e : Int) (dim : Nat) (h0 : 0 < dim) (h1 : dim < 4294967296) :
    toU32 (wrapIndex e dim) < dim := by
  have hu := Nat.mod_lt (toU32 e) h0
  unfold wrapIndex
  generalize toU32 e % dim = u at hu ⊢
  simp only [toI32, toU32]
  split_ifs <;> omega

theorem wrapIndex_eq_mod (e : Int) (dim : Nat) (h0 : 0 < dim) (h1 : dim ≤ 2147483648) :
    wrapIndex e dim = ((toU32 e % dim : Nat) : Int) := by
  have hu := Nat.mod_lt (toU32 e) h0
  unfold wrapIndex
  generalize toU32 e % dim = u at hu ⊢
  simp only [toI32]
  split_ifs <;> omega

theorem wrapIndex_range (e : Int) (dim : Nat) (h0 : 0 < dim) (h1 : dim ≤ 2147483648) :
    0 ≤ wrapIndex e dim ∧ wrapIndex e dim < dim := by
  rw [wrapIndex_eq_mod e dim h0 h1]
  have hu := Nat.mod_lt (toU32 e) h0
  omega

theorem initializeNewRegion_fields (l : GridLayer T) :
    l.initializeNewRegion.width_ = l.width_ ∧ l.initializeNewRegion.height_ = l.height_ ∧
    l.initializeNewRegion.logical_offset_row_ = l.logical_offset_row_ ∧
    l.initializeNewRegion.logical_offset_col_ = l.logical_offset_col_ ∧
    l.initializeNewRegion.prev_logical_offset_row_ = l.prev_logical_offset_row_ ∧
    l.initializeNewRegion.prev_logical_offset_col_ = l.prev_logical_offset_col_ ∧
    l.initializeNewRegion.initial_value_ = l.initial_value_ :=
  ⟨rfl, rfl, rfl, rfl, rfl, rfl, rfl⟩

theorem moveLogicalOrigin_fields (l : GridLayer T) (d_row d_col : Int) :
    (l.moveLogicalOrigin d_row d_col).width_ = l.width_ ∧
    (l.moveLogicalOrigin d_row d_col).height_ = l.height_ ∧
    (l.moveLogicalOrigin d_row d_col).logical_offset_row_ =
      wrapIndex (toI32 (l.logical_offset_row_ + d_row)) l.height_ ∧
    (l.moveLogicalOrigin d_row d_col).logical_offset_col_ =
      wrapIndex (toI32 (l.logical_offset_col_ + d_col)) l.width_ ∧
    (l.moveLogicalOrigin d_row d_col).prev_logical_offset_row_ = l.logical_offset_row_ ∧
    (l.moveLogicalOrigin d_row d_col).prev_logical_offset_col_ = l.logical_offset_col_ ∧
    (l.moveLogicalOrigin d_row d_col).initial_value_ = l.initial_value_ := by
  unfold moveLogicalOrigin
  refine ⟨?_, ?_, ?_, ?_, ?_, ?_, ?_⟩
  · rw [(initializeNewRegion_fields _).1]
  · rw [(initializeNewRegion_fields _).2.1]
  · rw [(initializeNewRegion_fields _).2.2.1]
  · rw [(initializeNewRegion_fields _).2.2.2.1]
  · rw [(initializeNewRegion_fields _).2.2.2.2.1]
  · rw [(initializeNewRegion_fields _).2.2.2.2.2.1]
  · rw [(initializeNewRegion_fields _).2.2.2.2.2.2]

theorem run_dims (l : GridLayer T) (call : LayerCall T) :
    (LayerCall.run l call).width_ = l.width_ ∧ (LayerCall.run l call).height_ = l.height_ := by
  cases call with
  | moveLogicalOrigin d_row d_col =>
    exact ⟨(moveLogicalOrigin_fields l d_row d_col).1, (moveLogicalOrigin_fields l d_row d_col).2.1⟩
  | setValue r c v => exact ⟨rfl, rfl⟩
  | reset v => exact ⟨rfl, rfl⟩
  | getView _ _ _ _ => exact ⟨rfl, rfl⟩
  | getValue _ _ => exact ⟨rfl, rfl⟩

theorem run_offsetInRange (l : GridLayer T) (call : LayerCall T)
    (hw : 0 < l.width_) (hw' : l.width_ ≤ 2147483648)
    (hh : 0 < l.height_) (hh' : l.height_ ≤ 2147483648) (hl : OffsetInRange l) :
    OffsetInRange (LayerCall.run l call) := by
  cases call with
  | moveLogicalOrigin d_row d_col =>
    have hr := wrapIndex_range (toI32 (l.logical_offset_row_ + d_row)) l.height_ hh hh'
    have hc := wrapIndex_range (toI32 (l.logical_offset_col_ + d_col)) l.width_ hw hw'
    have hf := moveLogicalOrigin_fields l d_row d_col
    simp only [LayerCall.run, OffsetInRange, hf.1, hf.2.1, hf.2.2.1, hf.2.2.2.1]
    exact ⟨hr.1, hr.2, hc.1, hc.2⟩
  | setValue r c v => exact hl
  | reset v => exact hl
  | getView _ _ _ _ => exact hl
  | getValue _ _ => exact hl

theorem foldl_run_offsetInRange (calls : List (LayerCall T)) (l : GridLayer T)
    (hw : 0 < l.width_) (hw' : l.width_ ≤ 2147483648)
    (hh : 0 < l.height_) (hh' : l.height_ ≤ 2147483648) (hl : OffsetInRange l) :
    OffsetInRange (calls.foldl (fun s call => LayerCall.run s call) l) := by
  induction calls generalizing l with
  | nil => exact hl
  | cons call rest ih =>
    have hd := run_dims l call
    exact ih (LayerCall.run l call) (by rw [hd.1]; exact hw) (by rw [hd.1]; exact hw')
      (by rw [hd.2]; exact hh) (by rw [hd.2]; exact hh')
      (run_offsetInRange l call hw hw' hh hh' hl)

theorem coeff_setCoeff (m : EigenMatrix T) (row col : Int) (value : T) (i j : Int) :
    (m.setCoeff row col value).coeff i j =
      if i = row ∧ j = col then value else m.coeff i j := rfl

theorem logicalToPhysical_setValue (l : GridLayer T) (r c : Int) (v : T) (r' c' : Int) :
    (l.setValue r c v).logicalToPhysical r' c' = l.logicalToPhysical r' c' := rfl

theorem data_setValue (l : GridLayer T) (r c : Int) (v : T) :
    (l.setValue r c v).data_ =
      l.data_.setCoeff (l.logicalToPhysical r c).1 (l.logicalToPhysical r c).2 v := rfl

theorem getValue_setValue (l : GridLayer T) (r c : Int) (v : T) :
    (l.setValue r c v).getValue r c = v := by
  unfold getValue
  rw [logicalToPhysical_setValue, data_setValue, coeff_setCoeff, if_pos]
  exact ⟨rfl, rfl⟩

theorem foldl_setCoeff_inner (g : Nat → T) (y : Int) (w : Nat) (v0 : EigenMatrix T) :
    ((List.range w).foldl (fun view (x : Nat) => view.setCoeff y (x : Int) (g x)) v0).rows = v0.rows ∧
    ((List.range w).foldl (fun view (x : Nat) => view.setCoeff y (x : Int) (g x)) v0).cols = v0.cols ∧
    ∀ i j : Int,
      ((List.range w).foldl (fun view (x : Nat) => view.setCoeff y (x : Int) (g x)) v0).coeff i j =
        if i = y ∧ 0 ≤ j ∧ j < w then g j.toNat else v0.coeff i j := by
  induction w with
  | zero =>
    refine ⟨rfl, rfl, fun i j => ?_⟩
    rw [if_neg]
    · rfl
    · intro h
      have := h.2.2
      simp at this
      omega
  | succ n ih =>
    rw [List.range_succ, List.foldl_append]
    refine ⟨ih.1, ih.2.1, fun i j => ?_⟩
    simp only [List.foldl_cons, List.foldl_nil]
    rw [coeff_setCoeff, ih.2.2 i j]
    by_cases hj : j = (n : Int)
    · subst hj
      by_cases hi : i = y
      · simp [hi]
      · simp [hi]
    · have h1 : ¬ (i = y ∧ j = (n : Int)) := fun h => hj h.2
      rw [if_neg h1]
      by_cases hc : i = y ∧ 0 ≤ j ∧ j < (n : Int)
      · rw [if_pos hc, if_pos]
        exact ⟨hc.1, hc.2.1, by push_cast; omega⟩
      · rw [if_neg hc, if_neg]
        intro h
        apply hc
        refine ⟨h.1, h.2.1, ?_⟩
        have := h.2.2
        push_cast at this
        omega

theorem foldl_setCoeff_outer (f : Nat → Nat → T) (h w : Nat) (v0 : EigenMatrix T) :
    ((List.range h).foldl
      (fun view (y : Nat) => (List.range w).foldl
        (fun view (x : Nat) => view.setCoeff (y : Int) (x : Int) (f y x)) view) v0).rows = v0.rows ∧
    ((List.range h).foldl
      (fun view (y : Nat) => (List.range w).foldl
        (fun view (x : Nat) => view.setCoeff (y : Int) (x : Int) (f y x)) view) v0).cols = v0.cols ∧
    ∀ i j : Int,
      ((List.range h).foldl
        (fun view (y : Nat) => (List.range w).foldl
          (fun view (x : Nat) => view.setCoeff (y : Int) (x : Int) (f y x)) view) v0).coeff i j =
        if 0 ≤ i ∧ i < h ∧ 0 ≤ j ∧ j < w then f i.toNat j.toNat else v0.coeff i j := by
  induction h with
  | zero =>
    refine ⟨rfl, rfl, fun i j => ?_⟩
    rw [if_neg]
    · rfl
    · intro hc
      have := hc.2.1
      simp at this
      omega
  | succ n ih =>
    rw [List.range_succ, List.foldl_append]
    simp only [List.foldl_cons, List.foldl_nil]
    have hin := foldl_setCoeff_inner (f n) (n : Int) w
      ((List.range n).foldl
        (fun view (y : Nat) => (List.range w).foldl
          (fun view (x : Nat) => view.setCoeff (y : Int) (x : Int) (f y x)) view) v0)
    refine ⟨hin.1.trans ih.1, hin.2.1.trans ih.2.1, fun i j => ?_⟩
    rw [hin.2.2 i j, ih.2.2 i j]
    by_cases hi : i = (n : Int)
    · subst hi
      by_cases hj : 0 ≤ j ∧ j < (w : Int)
      · rw [if_pos ⟨rfl, hj⟩, if_pos]
        · simp
        · exact ⟨by omega, by push_cast; omega, hj.1, hj.2⟩
      · have h1 : ¬ ((n : Int) = (n : Int) ∧ 0 ≤ j ∧ j < (w : Int)) := fun hc => hj hc.2
        rw [if_neg h1, if_neg, if_neg]
        · intro hc; exact hj ⟨hc.2.2.1, hc.2.2.2⟩
        · intro hc; exact hj ⟨hc.2.2.1, hc.2.2.2⟩
    · have h1 : ¬ (i = (n : Int) ∧ 0 ≤ j ∧ j < (w : Int)) := fun hc => hi hc.1
      rw [if_neg h1]
      by_cases hc : 0 ≤ i ∧ i < (n : Int) ∧ 0 ≤ j ∧ j < (w : Int)
      · rw [if_pos hc, if_pos]
        exact ⟨hc.1, by push_cast; omega, hc.2.2.1, hc.2.2.2⟩
      · rw [if_neg hc, if_neg]
        intro hc'
        apply hc
        refine ⟨hc'.1, ?_, hc'.2.2.1, hc'.2.2.2⟩
        have := hc'.2.1
        push_cast at this
        omega

theorem toI32_view_index (center : Int) (size k : Nat) (hsize : size < 4294967296)
    (hlo : -2147483648 ≤ center - ((size / 2 : Nat) : Int))
    (hhi : center - ((size / 2 : Nat) : Int) + (k : Int) < 2147483648) :
    toI32 ((toU32 (toI32 (center - toI32 ((size / 2 : Nat) : Int))) + k : Nat) : Int) =
      center - ((size / 2 : Nat) : Int) + (k : Int) := by
  have h2 : size / 2 < 2147483648 := by omega
  generalize size / 2 = half at *
  simp only [toI32, toU32]
  split_ifs <;> omega

theorem toU32_wrapIndex_of_nonneg (e : Int) (dim : Nat) (h0 : 0 < dim) (h1 : dim ≤ 2147483648)
    (he : 0 ≤ e) (he' : e < 2147483648) :
    ((toU32 (wrapIndex (toI32 e) dim) : Nat) : Int) = e % (dim : Int) := by
  rw [wrapIndex_eq_mod _ _ h0 h1]
  have h2 : toI32 e = e := by simp only [toI32]; split_ifs <;> omega
  have h3 : toU32 e = e.toNat := by simp only [toU32]; omega
  rw [h2, h3]
  have hu := Nat.mod_lt e.toNat h0
  have h4 : toU32 ((e.toNat % dim : Nat) : Int) = e.toNat % dim := by
    generalize e.toNat % dim = u at hu ⊢
    simp only [toU32]; omega
  rw [h4, Int.natCast_mod, Int.toNat_of_nonneg he]

theorem logicalToPhysical_eq_spec_of_nonneg (l : GridLayer T) (r c : Int)
    (hh : 0 < l.height_) (hh' : l.height_ ≤ 2147483648)
    (hw : 0 < l.width_) (hw' : l.width_ ≤ 2147483648)
    (hr : 0 ≤ r + l.logical_offset_row_) (hr' : r + l.logical_offset_row_ < 2147483648)
    (hc : 0 ≤ c + l.logical_offset_col_) (hc' : c + l.logical_offset_col_ < 2147483648) :
    (((l.logicalToPhysical r c).1 : Int), ((l.logicalToPhysical r c).2 : Int)) =
      logicalToPhysicalSpec l r c := by
  simp only [logicalToPhysical, logicalToPhysicalSpec]
  rw [toU32_wrapIndex_of_nonneg _ _ hh hh' hr hr', toU32_wrapIndex_of_nonneg _ _ hw hw' hc hc']

theorem layers_setCellValue_of_ne {D : Type} [WorldScalar D] (m : CircularGridMap D T)
    (x y : D) (v : T) (a b : String) (hab : a ≠ b) :
    (m.setCellValue x y v a).layers_ b = m.layers_ b := by
  unfold CircularGridMap.setCellValue
  cases h : m.layers_ a with
  | none => rfl
  | some layer => exact if_neg (fun hba => hab hba.symm)

theorem layers_resetLayer_of_ne {D : Type} (m : CircularGridMap D T)
    (v : T) (a b : String) (hab : a ≠ b) :
    (m.resetLayer a v).layers_ b = m.layers_ b := by
  unfold CircularGridMap.resetLayer
  cases h : m.layers_ a with
  | none => rfl
  | some layer => exact if_neg (fun hba => hab hba.symm)

theorem center_setCellValue {D : Type} [WorldScalar D] (m : CircularGridMap D T)
    (x y : D) (v : T) (a : String) :
    (m.setCellValue x y v a).world_center_x_ = m.world_center_x_ ∧
    (m.setCellValue x y v a).world_center_y_ = m.world_center_y_ := by
  unfold CircularGridMap.setCellValue
  cases h : m.layers_ a with
  | none => exact ⟨rfl, rfl⟩
  | some layer => exact ⟨rfl, rfl⟩

theorem center_resetLayer {D : Type} (m : CircularGridMap D T) (v : T) (a : String) :
    (m.resetLayer a v).world_center_x_ = m.world_center_x_ ∧
    (m.resetLayer a v).world_center_y_ = m.world_center_y_ := by
  unfold CircularGridMap.resetLayer
  cases h : m.layers_ a with
  | none => exact ⟨rfl, rfl⟩
  | some layer => exact ⟨rfl, rfl⟩

theorem getCellValue_congr {D : Type} [WorldScalar D] [Zero T] (m m' : CircularGridMap D T)
    (x y : D) (b : String) (hl : m'.layers_ b = m.layers_ b)
    (hx : m'.world_center_x_ = m.world_center_x_) (hy : m'.world_center_y_ = m.world_center_y_) :
    m'.getCellValue x y b = m.getCellValue x y b := by
  unfold CircularGridMap.getCellValue
  rw [hl, hx, hy]

theorem coeff_rowSetConstant (m : EigenMatrix T) (row : Int) (value : T) (i j : Int) :
    (m.rowSetConstant row value).coeff i j = if i = row then value else m.coeff i j := rfl

theorem coeff_colSetConstant (m : EigenMatrix T) (col : Int) (value : T) (i j : Int) :
    (m.colSetConstant col value).coeff i j = if j = col then value else m.coeff i j := rfl

theorem wrapIndex_of_lt (r : Int) (dim : Nat) (h1 : dim ≤ 2147483648) (hr : 0 ≤ r)
    (hr' : r < dim) : wrapIndex r dim = r := by
  have h0 : 0 < dim := by omega
  rw [wrapIndex_eq_mod r dim h0 h1]
  have h3 : toU32 r = r.toNat := by simp only [toU32]; omega
  rw [h3, Nat.mod_eq_of_lt (by omega)]
  omega

theorem foldl_rowSetConstant_coeff (data : EigenMatrix T) (height : Nat) (value : T) (lo : Int)
    (n : Nat) (h1 : height ≤ 2147483648) (hlo : 0 ≤ lo) (hn : lo + (n : Int) ≤ height)
    (i j : Int) :
    ((List.range n).foldl
      (fun m (k : Nat) => m.rowSetConstant (wrapIndex (lo + (k : Int)) height) value) data).coeff i j
      = if lo ≤ i ∧ i < lo + (n : Int) then value else data.coeff i j := by
  induction n with
  | zero =>
    rw [if_neg]
    · rfl
    · intro h; omega
  | succ n ih =>
    rw [List.range_succ, List.foldl_append]
    simp only [List.foldl_cons, List.foldl_nil]
    rw [coeff_rowSetConstant, ih (by push_cast at hn; omega),
      wrapIndex_of_lt (lo + (n : Int)) height h1 (by omega) (by push_cast at hn; omega)]
    by_cases hi : i = lo + (n : Int)
    · rw [if_pos hi, if_pos]
      push_cast; omega
    · rw [if_neg hi]
      by_cases hc : lo ≤ i ∧ i < lo + (n : Int)
      · rw [if_pos hc, if_pos]
        push_cast; omega
      · rw [if_neg hc, if_neg]
        push_cast; omega

theorem foldl_colSetConstant_coeff (data : EigenMatrix T) (width : Nat) (value : T) (lo : Int)
    (n : Nat) (h1 : width ≤ 2147483648) (hlo : 0 ≤ lo) (hn : lo + (n : Int) ≤ width)
    (i j : Int) :
    ((List.range n).foldl
      (fun m (k : Nat) => m.colSetConstant (wrapIndex (lo + (k : Int)) width) value) data).coeff i j
      = if lo ≤ j ∧ j < lo + (n : Int) then value else data.coeff i j := by
  induction n with
  | zero =>
    rw [if_neg]
    · rfl
    · intro h; omega
  | succ n ih =>
    rw [List.range_succ, List.foldl_append]
    simp only [List.foldl_cons, List.foldl_nil]
    rw [coeff_colSetConstant, ih (by push_cast at hn; omega),
      wrapIndex_of_lt (lo + (n : Int)) width h1 (by omega) (by push_cast at hn; omega)]
    by_cases hj : j = lo + (n : Int)
    · rw [if_pos hj, if_pos]
      push_cast; omega
    · rw [if_neg hj]
      by_cases hc : lo ≤ j ∧ j < lo + (n : Int)
      · rw [if_pos hc, if_pos]
        push_cast; omega
      · rw [if_neg hc, if_neg]
        push_cast; omega

theorem clearRows_coeff (data : EigenMatrix T) (height : Nat) (value : T) (lo hi : Int)
    (h1 : height ≤ 2147483648) (hlo : 0 ≤ lo) (hlo' : lo ≤ height) (hhi : hi ≤ height)
    (i j : Int) :
    (clearRows data height value lo hi).coeff i j
      = if lo ≤ i ∧ i < hi then value else data.coeff i j := by
  unfold clearRows
  simp only [bind_pure_comp, List.map_eq_map, List.foldl_map]
  rw [foldl_rowSetConstant_coeff data height value lo _ h1 hlo (by omega)]
  by_cases hc : lo ≤ i ∧ i < hi
  · rw [if_pos hc, if_pos]; omega
  · rw [if_neg hc, if_neg]; omega

theorem clearCols_coeff (data : EigenMatrix T) (width : Nat) (value : T) (lo hi : Int)
    (h1 : width ≤ 2147483648) (hlo : 0 ≤ lo) (hlo' : lo ≤ width) (hhi : hi ≤ width)
    (i j : Int) :
    (clearCols data width value lo hi).coeff i j
      = if lo ≤ j ∧ j < hi then value else data.coeff i j := by
  unfold clearCols
  simp only [bind_pure_comp, List.map_eq_map, List.foldl_map]
  rw [foldl_colSetConstant_coeff data width value lo _ h1 hlo (by omega)]
  by_cases hc : lo ≤ j ∧ j < hi
  · rw [if_pos hc, if_pos]; omega
  · rw [if_neg hc, if_neg]; omega

theorem rowPhase_coeff (data : EigenMatrix T) (height : Nat) (value : T) (p n : Int)
    (h1 : height ≤ 2147483648) (hp : 0 ≤ p) (hp' : p < height) (hn : 0 ≤ n) (hn' : n < height)
    (i j : Int) :
    (if toI32 (n - p) ≠ 0 then
        if toI32 (n - p) > 0 then
          clearRows data height value p (toI32 (p + toI32 (n - p)))
        else
          clearRows data height value n (toI32 (n + toI32 (-toI32 (n - p))))
      else data).coeff i j
      = if min p n ≤ i ∧ i < max p n then value else data.coeff i j := by
  have hd : toI32 (n - p) = n - p := by simp only [toI32]; split_ifs <;> omega
  rw [hd]
  by_cases h0 : n - p = 0
  · have : ¬ (n - p ≠ 0) := fun h => h h0
    rw [if_neg this, if_neg]
    intro hc
    have := min_le_max (a := p) (b := n)
    rcases le_total p n with h | h
    · rw [min_eq_left h, max_eq_right h] at hc; omega
    · rw [min_eq_right h, max_eq_left h] at hc; omega
  · rw [if_pos h0]
    by_cases hpos : n - p > 0
    · rw [if_pos hpos]
      have hhi : toI32 (p + (n - p)) = n := by simp only [toI32]; split_ifs <;> omega
      rw [hhi, clearRows_coeff data height value p n h1 hp (by omega) (by omega),
        min_eq_left (by omega), max_eq_right (by omega)]
    · rw [if_neg hpos]
      have hneg : toI32 (-(n - p)) = p - n := by simp only [toI32]; split_ifs <;> omega
      have hhi : toI32 (n + (p - n)) = p := by simp only [toI32]; split_ifs <;> omega
      rw [hneg, hhi, clearRows_coeff data height value n p h1 hn (by omega) (by omega),
        min_eq_right (by omega), max_eq_left (by omega)]

theorem colPhase_coeff (data : EigenMatrix T) (width : Nat) (value : T) (p n : Int)
    (h1 : width ≤ 2147483648) (hp : 0 ≤ p) (hp' : p < width) (hn : 0 ≤ n) (hn' : n < width)
    (i j : Int) :
    (if toI32 (n - p) ≠ 0 then
        if toI32 (n - p) > 0 then
          clearCols data width value p (toI32 (p + toI32 (n - p)))
        else
          clearCols data width value n (toI32 (n + toI32 (-toI32 (n - p))))
      else data).coeff i j
      = if min p n ≤ j ∧ j < max p n then value else data.coeff i j := by
  have hd : toI32 (n - p) = n - p := by simp only [toI32]; split_ifs <;> omega
  rw [hd]
  by_cases h0 : n - p = 0
  · have : ¬ (n - p ≠ 0) := fun h => h h0
    rw [if_neg this, if_neg]
    intro hc
    rcases le_total p n with h | h
    · rw [min_eq_left h, max_eq_right h] at hc; omega
    · rw [min_eq_right h, max_eq_left h] at hc; omega
  · rw [if_pos h0]
    by_cases hpos : n - p > 0
    · rw [if_pos hpos]
      have hhi : toI32 (p + (n - p)) = n := by simp only [toI32]; split_ifs <;> omega
      rw [hhi, clearCols_coeff data width value p n h1 hp (by omega) (by omega),
        min_eq_left (by omega), max_eq_right (by omega)]
    · rw [if_neg hpos]
      have hneg : toI32 (-(n - p)) = p - n := by simp only [toI32]; split_ifs <;> omega
      have hhi : toI32 (n + (p - n)) = p := by simp only [toI32]; split_ifs <;> omega
      rw [hneg, hhi, clearCols_coeff data width value n p h1 hn (by omega) (by omega),
        min_eq_right (by omega), max_eq_left (by omega)]

theorem initializeNewRegion_data (l : GridLayer T) :
    l.initializeNewRegion.data_ =
      (if toI32 (l.logical_offset_col_ - l.prev_logical_offset_col_) ≠ 0 then
        if toI32 (l.logical_offset_col_ - l.prev_logical_offset_col_) > 0 then
          clearCols
            (if toI32 (l.logical_offset_row_ - l.prev_logical_offset_row_) ≠ 0 then
              if toI32 (l.logical_offset_row_ - l.prev_logical_offset_row_) > 0 then
                clearRows l.data_ l.height_ l.initial_value_ l.prev_logical_offset_row_
                  (toI32 (l.prev_logical_offset_row_
                    + toI32 (l.logical_offset_row_ - l.prev_logical_offset_row_)))
              else
                clearRows l.data_ l.height_ l.initial_value_ l.logical_offset_row_
                  (toI32 (l.logical_offset_row_
                    + toI32 (-toI32 (l.logical_offset_row_ - l.prev_logical_offset_row_))))
            else l.data_)
            l.width_ l.initial_value_ l.prev_logical_offset_col_
            (toI32 (l.prev_logical_offset_col_
              + toI32 (l.logical_offset_col_ - l.prev_logical_offset_col_)))
        else
          clearCols
            (if toI32 (l.logical_offset_row_ - l.prev_logical_offset_row_) ≠ 0 then
              if toI32 (l.logical_offset_row_ - l.prev_logical_offset_row_) > 0 then
                clearRows l.data_ l.height_ l.initial_value_ l.prev_logical_offset_row_
                  (toI32 (l.prev_logical_offset_row_
                    + toI32 (l.logical_offset_row_ - l.prev_logical_offset_row_)))
              else
                clearRows l.data_ l.height_ l.initial_value_ l.logical_offset_row_
                  (toI32 (l.logical_offset_row_
                    + toI32 (-toI32 (l.logical_offset_row_ - l.prev_logical_offset_row_))))
            else l.data_)
            l.width_ l.initial_value_ l.logical_offset_col_
            (toI32 (l.logical_offset_col_
              + toI32 (-toI32 (l.logical_offset_col_ - l.prev_logical_offset_col_))))
      else
        (if toI32 (l.logical_offset_row_ - l.prev_logical_offset_row_) ≠ 0 then
          if toI32 (l.logical_offset_row_ - l.prev_logical_offset_row_) > 0 then
            clearRows l.data_ l.height_ l.initial_value_ l.prev_logical_offset_row_
              (toI32 (l.prev_logical_offset_row_
                + toI32 (l.logical_offset_row_ - l.prev_logical_offset_row_)))
          else
            clearRows l.data_ l.height_ l.initial_value_ l.logical_offset_row_
              (toI32 (l.logical_offset_row_
                + toI32 (-toI32 (l.logical_offset_row_ - l.prev_logical_offset_row_))))
        else l.data_)) := rfl

theorem initializeNewRegion_coeff (l : GridLayer T)
    (hh : l.height_ ≤ 2147483648) (hw : l.width_ ≤ 2147483648)
    (hpr : 0 ≤ l.prev_logical_offset_row_) (hpr' : l.prev_logical_offset_row_ < l.height_)
    (hpc : 0 ≤ l.prev_logical_offset_col_) (hpc' : l.prev_logical_offset_col_ < l.width_)
    (hnr : 0 ≤ l.logical_offset_row_) (hnr' : l.logical_offset_row_ < l.height_)
    (hnc : 0 ≤ l.logical_offset_col_) (hnc' : l.logical_offset_col_ < l.width_)
    (i j : Int) :
    l.initializeNewRegion.data_.coeff i j =
      if (min l.prev_logical_offset_row_ l.logical_offset_row_ ≤ i ∧
            i < max l.prev_logical_offset_row_ l.logical_offset_row_) ∨
          (min l.prev_logical_offset_col_ l.logical_offset_col_ ≤ j ∧
            j < max l.prev_logical_offset_col_ l.logical_offset_col_)
      then l.initial_value_ else l.data_.coeff i j := by
  rw [initializeNewRegion_data,
    colPhase_coeff _ l.width_ l.initial_value_ _ _ hw hpc hpc' hnc hnc' i j,
    rowPhase_coeff _ l.height_ l.initial_value_ _ _ hh hpr hpr' hnr hnr' i j]
  by_cases hc : min l.prev_logical_offset_col_ l.logical_offset_col_ ≤ j ∧
      j < max l.prev_logical_offset_col_ l.logical_offset_col_
  · rw [if_pos hc, if_pos (Or.inr hc)]
  · rw [if_neg hc]
    by_cases hr : min l.prev_logical_offset_row_ l.logical_offset_row_ ≤ i ∧
        i < max l.prev_logical_offset_row_ l.logical_offset_row_
    · rw [if_pos hr, if_pos (Or.inl hr)]
    · rw [if_neg hr, if_neg]
      intro h
      rcases h with h | h
      · exact hr h
      · exact hc h




theorem moveLogicalOrigin_data (l : GridLayer T) (d_row d_col : Int) :
    (l.moveLogicalOrigin d_row d_col).data_ =
      (initializeNewRegion
        { l with
          prev_logical_offset_row_ := l.logical_offset_row_
          prev_logical_offset_col_ := l.logical_offset_col_
          logical_offset_row_ := wrapIndex (toI32 (l.logical_offset_row_ + d_row)) l.height_
          logical_offset_col_ := wrapIndex (toI32 (l.logical_offset_col_ + d_col)) l.width_
        }).data_ := by
  unfold moveLogicalOrigin
  rfl

theorem initializeNewRegion_coeff_of_offsets (l : GridLayer T) (nr nc : Int)
    (hh : l.height_ ≤ 2147483648) (hw : l.width_ ≤ 2147483648) (hoff : OffsetInRange l)
    (hnr : 0 ≤ nr) (hnr' : nr < l.height_) (hnc : 0 ≤ nc) (hnc' : nc < l.width_)
    (i j : Int) :
    (initializeNewRegion
        { l with
          prev_logical_offset_row_ := l.logical_offset_row_
          prev_logical_offset_col_ := l.logical_offset_col_
          logical_offset_row_ := nr
          logical_offset_col_ := nc }).data_.coeff i j =
      if (min l.logical_offset_row_ nr ≤ i ∧ i < max l.logical_offset_row_ nr) ∨
          (min l.logical_offset_col_ nc ≤ j ∧ j < max l.logical_offset_col_ nc)
      then l.initial_value_ else l.data_.coeff i j :=
  initializeNewRegion_coeff
    { l with
      prev_logical_offset_row_ := l.logical_offset_row_
      prev_logical_offset_col_ := l.logical_offset_col_
      logical_offset_row_ := nr
      logical_offset_col_ := nc }
    hh hw hoff.1 hoff.2.1 hoff.2.2.1 hoff.2.2.2 hnr hnr' hnc hnc' i j

theorem moveLogicalOrigin_coeff (l : GridLayer T) (d_row d_col : Int)
    (hh0 : 0 < l.height_) (hh : l.height_ ≤ 2147483648)
    (hw0 : 0 < l.width_) (hw : l.width_ ≤ 2147483648)
    (hoff : OffsetInRange l) (i j : Int) :
    (l.moveLogicalOrigin d_row d_col).data_.coeff i j =
      if (min l.logical_offset_row_ (l.moveLogicalOrigin d_row d_col).logical_offset_row_ ≤ i ∧
            i < max l.logical_offset_row_ (l.moveLogicalOrigin d_row d_col).logical_offset_row_) ∨
          (min l.logical_offset_col_ (l.moveLogicalOrigin d_row d_col).logical_offset_col_ ≤ j ∧
            j < max l.logical_offset_col_ (l.moveLogicalOrigin d_row d_col).logical_offset_col_)
      then l.initial_value_ else l.data_.coeff i j := by
  have hf := moveLogicalOrigin_fields l d_row d_col
  have hr := wrapIndex_range (toI32 (l.logical_offset_row_ + d_row)) l.height_ hh0 hh
  have hc := wrapIndex_range (toI32 (l.logical_offset_col_ + d_col)) l.width_ hw0 hw
  rw [hf.2.2.1, hf.2.2.2.1, moveLogicalOrigin_data]
  exact initializeNewRegion_coeff_of_offsets l _ _ hh hw hoff hr.1 hr.2 hc.1 hc.2 i j

theorem foldl_rowSetConstant_const (ks : List Int) (g : Int → Int) (value : T)
    (data : EigenMatrix T) (hd : ∀ i j, data.coeff i j = value) (i j : Int) :
    (ks.foldl (fun m k => m.rowSetConstant (g k) value) data).coeff i j = value := by
  induction ks generalizing data with
  | nil => exact hd i j
  | cons k rest ih =>
    apply ih
    intro a b
    rw [coeff_rowSetConstant, hd a b, ite_self]

theorem foldl_colSetConstant_const (ks : List Int) (g : Int → Int) (value : T)
    (data : EigenMatrix T) (hd : ∀ i j, data.coeff i j = value) (i j : Int) :
    (ks.foldl (fun m k => m.colSetConstant (g k) value) data).coeff i j = value := by
  induction ks generalizing data with
  | nil => exact hd i j
  | cons k rest ih =>
    apply ih
    intro a b
    rw [coeff_colSetConstant, hd a b, ite_self]

theorem clearRows_const (data : EigenMatrix T) (height : Nat) (value : T) (lo hi : Int)
    (hd : ∀ i j, data.coeff i j = value) (i j : Int) :
    (clearRows data height value lo hi).coeff i j = value :=
  foldl_rowSetConstant_const _ (fun k => wrapIndex (lo + k) height) value data hd i j

theorem clearCols_const (data : EigenMatrix T) (width : Nat) (value : T) (lo hi : Int)
    (hd : ∀ i j, data.coeff i j = value) (i j : Int) :
    (clearCols data width value lo hi).coeff i j = value :=
  foldl_colSetConstant_const _ (fun k => wrapIndex (lo + k) width) value data hd i j

theorem initializeNewRegion_const (l : GridLayer T)
    (hd : ∀ i j, l.data_.coeff i j = l.initial_value_) (i j : Int) :
    l.initializeNewRegion.data_.coeff i j = l.initial_value_ := by
  rw [initializeNewRegion_data]
  split_ifs
  · exact clearCols_const _ _ _ _ _ (fun a b => clearRows_const _ _ _ _ _ hd a b) i j
  · exact clearCols_const _ _ _ _ _ (fun a b => clearRows_const _ _ _ _ _ hd a b) i j
  · exact clearCols_const _ _ _ _ _ hd i j
  · exact clearCols_const _ _ _ _ _ (fun a b => clearRows_const _ _ _ _ _ hd a b) i j
  · exact clearCols_const _ _ _ _ _ (fun a b => clearRows_const _ _ _ _ _ hd a b) i j
  · exact clearCols_const _ _ _ _ _ hd i j
  · exact clearRows_const _ _ _ _ _ hd i j
  · exact clearRows_const _ _ _ _ _ hd i j
  · exact hd i j

theorem moveLogicalOrigin_const (l : GridLayer T) (d_row d_col : Int)
    (hd : ∀ i j, l.data_.coeff i j = l.initial_value_) (i j : Int) :
    (l.moveLogicalOrigin d_row d_col).data_.coeff i j = l.initial_value_ := by
  rw [moveLogicalOrigin_data]
  exact initializeNewRegion_const
    { l with
      prev_logical_offset_row_ := l.logical_offset_row_
      prev_logical_offset_col_ := l.logical_offset_col_
      logical_offset_row_ := wrapIndex (toI32 (l.logical_offset_row_ + d_row)) l.height_
      logical_offset_col_ := wrapIndex (toI32 (l.logical_offset_col_ + d_col)) l.width_ }
    hd i j

theorem toInt32_eq_truncTowardZero (q : ℚ) :
    (WorldScalar.toInt32 q : Int) = truncTowardZero q := by
  show Int.tdiv q.num (q.den : Int) = truncTowardZero q
  unfold truncTowardZero
  by_cases hq : 0 ≤ q
  · rw [if_pos hq, Rat.floor_def]
    exact Int.tdiv_eq_ediv (Rat.num_nonneg.mpr hq) (Int.ofNat_nonneg _)
  · rw [if_neg hq]
    have hneg : 0 ≤ -q := by linarith
    have h1 : ⌈q⌉ = -⌊-q⌋ := by rw [Int.floor_neg, neg_neg]
    rw [h1, Rat.floor_def, Rat.neg_num, Rat.neg_den]
    have h2 : 0 ≤ -q.num := by
      have := Rat.num_nonneg.mpr hneg
      rwa [Rat.neg_num] at this
    rw [← Int.tdiv_eq_ediv h2 (Int.ofNat_nonneg _), Int.neg_tdiv, neg_neg]

/-! ## Claims -/

/-- C1 (round trip of the two coordinate mappings), evaluated on the code.  On a fresh
10x10 layer (offset `(0, 0)`) the logical coordinate `(-1, 0)` is mapped to the physical
cell `(5, 0)` and back to `(5, 0)`, where the claim gives `(-1 mod 10, 0 mod 10) = (9, 0)`.
With offset `(3, 0)` the non-negative coordinate `(8, 0)` is mapped to the physical cell
`(1, 0)` and back to `(4, 0)`, where the claim gives `(8, 0)`. -/
theorem roundTrip_on_10x10 :
    (GridLayer.new 10 10 (0 : Int)).logicalToPhysical (-1) 0 = (5, 0) ∧
    (GridLayer.new 10 10 (0 : Int)).physicalToLogical
        ((GridLayer.new 10 10 (0 : Int)).logicalToPhysical (-1) 0).1
        ((GridLayer.new 10 10 (0 : Int)).logicalToPhysical (-1) 0).2 = (5, 0) ∧
    ((-1 : Int) % 10, (0 : Int) % 10) = (9, 0) ∧
    ((GridLayer.new 10 10 (0 : Int)).moveLogicalOrigin 3 0).logical_offset_row_ = 3 ∧
    ((GridLayer.new 10 10 (0 : Int)).moveLogicalOrigin 3 0).logical_offset_col_ = 0 ∧
    ((GridLayer.new 10 10 (0 : Int)).moveLogicalOrigin 3 0).logicalToPhysical 8 0 = (1, 0) ∧
    ((GridLayer.new 10 10 (0 : Int)).moveLogicalOrigin 3 0).physicalToLogical
        (((GridLayer.new 10 10 (0 : Int)).moveLogicalOrigin 3 0).logicalToPhysical 8 0).1
        (((GridLayer.new 10 10 (0 : Int)).moveLogicalOrigin 3 0).logicalToPhysical 8 0).2
      = (4, 0) ∧
    ((8 : Int) % 10, (0 : Int) % 10) = (8, 0) := by
  decide

/-- C2 (logicalToPhysical against the reference definition), evaluated on the code.  On a
fresh 10x10 layer `logicalToPhysical(-1, 0)` is `(5, 0)` while the reference definition
gives `((-1) mod 10, 0 mod 10) = (9, 0)`; the logical rows `-1` and `9` differ by the
height and resolve to the different physical rows `5` and `9`. -/
theorem logicalToPhysical_negative_on_10x10 :
    (GridLayer.new 10 10 (0 : Int)).logicalToPhysical (-1) 0 = (5, 0) ∧
    logicalToPhysicalSpec (GridLayer.new 10 10 (0 : Int)) (-1) 0 = (9, 0) ∧
    (GridLayer.new 10 10 (0 : Int)).logicalToPhysical 9 0 = (9, 0) := by
  decide

/-- C3 (a shift preserves the cells outside the swept band), evaluated on the code.  The
10x10 layer has offset `(8, 0)` and the value 7 in the physical cell `(1, 0)`.  For
`moveLogicalOrigin(3, 0)` the swept band of the claim is the rows `8, 9, 0` and no column;
the cell `(1, 0)` lies outside it and holds the fill value 0 after the shift. -/
theorem moveLogicalOrigin_wrap_overwrites_outside_band :
    (layerAtRowOffset8.setValue 3 0 7).logical_offset_row_ = 8 ∧
    (layerAtRowOffset8.setValue 3 0 7).logical_offset_col_ = 0 ∧
    ((layerAtRowOffset8.setValue 3 0 7).moveLogicalOrigin 3 0).logical_offset_row_ = 1 ∧
    ((layerAtRowOffset8.setValue 3 0 7).moveLogicalOrigin 3 0).logical_offset_col_ = 0 ∧
    sweptBand 10 8 1 3 = [8, 9, 0] ∧ sweptBand 10 0 0 0 = [] ∧
    (layerAtRowOffset8.setValue 3 0 7).data_.coeff 1 0 = 7 ∧
    ((layerAtRowOffset8.setValue 3 0 7).moveLogicalOrigin 3 0).data_.coeff 1 0 = 0 := by
  decide

/-- C4 (the swept band is reset to the fill value), evaluated on the code.  The 10x10 layer
has offset `(8, 0)`, fill value 0 and the value 7 in the physical cell `(8, 0)`.  For
`moveLogicalOrigin(3, 0)` the swept band of the claim is the rows `8, 9, 0`; the cell
`(8, 0)` of the band still holds 7 after the shift. -/
theorem moveLogicalOrigin_wrap_leaves_band_cell :
    (layerAtRowOffset8.setValue 0 0 7).logical_offset_row_ = 8 ∧
    (layerAtRowOffset8.setValue 0 0 7).logicalToPhysical 0 0 = (8, 0) ∧
    sweptBand 10 8 1 3 = [8, 9, 0] ∧
    ((layerAtRowOffset8.setValue 0 0 7).moveLogicalOrigin 3 0).logical_offset_row_ = 1 ∧
    ((layerAtRowOffset8.setValue 0 0 7).moveLogicalOrigin 3 0).initial_value_ = 0 ∧
    ((layerAtRowOffset8.setValue 0 0 7).moveLogicalOrigin 3 0).data_.coeff 8 0 = 7 := by
  decide

/-- C5 (large-shift saturation), evaluated on the code.  On a fresh 10x10 layer with fill
value 0 and the value 7 written at logical `(0, 0)`, `moveLogicalOrigin(10, 0)` (a shift by
the whole height) leaves the offset at `(0, 0)` and the cell `(0, 0)` at 7: no row is
cleared. -/
theorem moveLogicalOrigin_by_height_clears_nothing :
    (((GridLayer.new 10 10 (0 : Int)).setValue 0 0 7).moveLogicalOrigin 10 0).logical_offset_row_
      = 0 ∧
    (((GridLayer.new 10 10 (0 : Int)).setValue 0 0 7).moveLogicalOrigin 10 0).initial_value_
      = 0 ∧
    (((GridLayer.new 10 10 (0 : Int)).setValue 0 0 7).moveLogicalOrigin 10 0).data_.coeff 0 0
      = 7 := by
  decide

set_option maxRecDepth 8000 in
/-- C6 (end-to-end scenario after a move), evaluated on the code.  In the scenario of the
test, before the move `getCellValue(0,0)` is 1 and `getCellValue(2,2,"obstacle")` is 100;
after `moveCenter(3,2)` the center is `(3, 2)`, `getCellValue(-3,-2)` is 0 and
`getCellValue(-1,0,"obstacle")` is 0, and the physical cells `(0, 0)` of the default layer
and `(2, 2)` of the obstacle layer, which held 1 and 100, hold 0. -/
theorem scenario_after_moveCenter :
    testMapBeforeMove.getCellValue 0 0 "default" = 1 ∧
    testMapBeforeMove.getCellValue 2 2 "obstacle" = 100 ∧
    testMapAfterMove.world_center_x_ = 3 ∧ testMapAfterMove.world_center_y_ = 2 ∧
    testMapAfterMove.getCellValue (-3) (-2) "default" = 0 ∧
    testMapAfterMove.getCellValue (-1) 0 "obstacle" = 0 ∧
    (testMapAfterMove.layers_ "default").map (fun layer => layer.data_.coeff 0 0) = some 0 ∧
    (testMapAfterMove.layers_ "obstacle").map (fun layer => layer.data_.coeff 2 2) = some 0 :=
  ⟨by with_unfolding_all rfl, by with_unfolding_all rfl, by with_unfolding_all rfl,
   by with_unfolding_all rfl, by with_unfolding_all rfl, by with_unfolding_all rfl,
   by with_unfolding_all rfl, by with_unfolding_all rfl⟩

/-- C7 (map-level write/read round trip): for every map state, every name of an existing
layer, every world coordinate and every value, `getCellValue(x, y, L)` right after
`setCellValue(x, y, v, L)` returns `v`. -/
theorem getCellValue_after_setCellValue {D : Type} [WorldScalar D] [Zero T]
    (m : CircularGridMap D T) (layer_name : String) (layer : GridLayer T)
    (world_x world_y : D) (value : T) (hlayer : m.layers_ layer_name = some layer) :
    (m.setCellValue world_x world_y value layer_name).getCellValue world_x world_y layer_name
      = value := by
  unfold CircularGridMap.setCellValue
  simp only [hlayer]
  unfold CircularGridMap.getCellValue
  simp only [if_true]
  exact getValue_setValue _ _ _ _

/-- Witness for C7: on the fresh 10x10 map, `setCellValue(0,0,1.0)` and then
`getCellValue(0,0)` on the default layer. -/
theorem getCellValue_after_setCellValue_witness :
    (CircularGridMap.new 10 10 0 : CircularGridMap ℚ ℚ).layers_ "default"
      = some (GridLayer.new 10 10 0) ∧
    ((CircularGridMap.new 10 10 0 : CircularGridMap ℚ ℚ).setCellValue 0 0 1
      "default").getCellValue 0 0 "default" = 1 :=
  ⟨rfl, getCellValue_after_setCellValue (CircularGridMap.new 10 10 0) "default"
    (GridLayer.new 10 10 0) 0 0 1 rfl⟩

/-- C8 (view correctness): `getView(c_row, c_col, h, w)` is an `h x w` array whose cell
`(y, x)`, for `y < h` and `x < w`, equals `getValue(c_row - h/2 + y, c_col - w/2 + x)` with
truncating division, provided the coordinates `c_row - h/2`, `c_row - h/2 + y`,
`c_col - w/2` and `c_col - w/2 + x` do not leave the `int32_t` range. -/
theorem getView_cell_eq_getValue [Zero T] (l : GridLayer T) (c_row c_col : Int) (h w y x : Nat)
    (hh : h < 4294967296) (hw : w < 4294967296) (hy : y < h) (hx : x < w)
    (hrow_lo : -2147483648 ≤ c_row - ((h / 2 : Nat) : Int))
    (hrow_hi : c_row - ((h / 2 : Nat) : Int) + (y : Int) < 2147483648)
    (hcol_lo : -2147483648 ≤ c_col - ((w / 2 : Nat) : Int))
    (hcol_hi : c_col - ((w / 2 : Nat) : Int) + (x : Int) < 2147483648) :
    (l.getView c_row c_col h w).rows = h ∧ (l.getView c_row c_col h w).cols = w ∧
    (l.getView c_row c_col h w).coeff (y : Int) (x : Int) =
      l.getValue (c_row - ((h / 2 : Nat) : Int) + (y : Int))
        (c_col - ((w / 2 : Nat) : Int) + (x : Int)) := by
  have key := foldl_setCoeff_outer
    (fun y x => l.getValue
      (toI32 ((toU32 (toI32 (c_row - toI32 ((h / 2 : Nat) : Int))) + y : Nat) : Int))
      (toI32 ((toU32 (toI32 (c_col - toI32 ((w / 2 : Nat) : Int))) + x : Nat) : Int)))
    h w (EigenMatrix.Constant h w 0)
  refine ⟨key.1, key.2.1, ?_⟩
  have hcell := key.2.2 (y : Int) (x : Int)
  rw [if_pos ⟨by omega, by omega, by omega, by omega⟩] at hcell
  simp only [Int.toNat_ofNat] at hcell
  rw [toI32_view_index c_row h y hh hrow_lo hrow_hi,
    toI32_view_index c_col w x hw hcol_lo hcol_hi] at hcell
  exact hcell

/-- Witness for C8: the cell `(2, 2)` of the 4x4 view centered at `(0, 0)` of a 10x10 layer
with 7 written at logical `(0, 0)`. -/
theorem getView_cell_eq_getValue_witness :
    ((4 : Nat) < 4294967296 ∧ (2 : Nat) < 4 ∧
      -2147483648 ≤ (0 : Int) - ((4 / 2 : Nat) : Int) ∧
      (0 : Int) - ((4 / 2 : Nat) : Int) + ((2 : Nat) : Int) < 2147483648) ∧
    (((GridLayer.new 10 10 (0 : Int)).setValue 0 0 7).getView 0 0 4 4).rows = 4 ∧
    (((GridLayer.new 10 10 (0 : Int)).setValue 0 0 7).getView 0 0 4 4).cols = 4 ∧
    (((GridLayer.new 10 10 (0 : Int)).setValue 0 0 7).getView 0 0 4 4).coeff
        ((2 : Nat) : Int) ((2 : Nat) : Int) =
      ((GridLayer.new 10 10 (0 : Int)).setValue 0 0 7).getValue
        ((0 : Int) - ((4 / 2 : Nat) : Int) + ((2 : Nat) : Int))
        ((0 : Int) - ((4 / 2 : Nat) : Int) + ((2 : Nat) : Int)) :=
  ⟨by decide,
   getView_cell_eq_getValue ((GridLayer.new 10 10 (0 : Int)).setValue 0 0 7) 0 0 4 4 2 2
    (by decide) (by decide) (by decide) (by decide) (by decide) (by decide) (by decide)
    (by decide)⟩

/-- C9 (no bounds failure): for every layer with positive `uint32_t` dimensions whose
storage has those dimensions, and every `(r, c)`, `logicalToPhysical(r, c)` returns a row
in `[0, height)` and a column in `[0, width)`; the index check of the access in `getValue`
succeeds and yields the value `getValue` returns, and the cell written by `setValue` passes
the index check and holds the written value. -/
theorem logicalToPhysical_in_range (l : GridLayer T) (r c : Int) (v : T)
    (hh : 0 < l.height_) (hh' : l.height_ < 4294967296)
    (hw : 0 < l.width_) (hw' : l.width_ < 4294967296)
    (hrows : l.data_.rows = l.height_) (hcols : l.data_.cols = l.width_) :
    (l.logicalToPhysical r c).1 < l.height_ ∧ (l.logicalToPhysical r c).2 < l.width_ ∧
    l.data_.coeffChecked (l.logicalToPhysical r c).1 (l.logicalToPhysical r c).2
      = some (l.getValue r c) ∧
    (l.setValue r c v).data_.coeffChecked (l.logicalToPhysical r c).1 (l.logicalToPhysical r c).2
      = some v := by
  have h1 : (l.logicalToPhysical r c).1 < l.height_ := by
    simp only [logicalToPhysical]
    exact toU32_wrapIndex_lt _ _ hh hh'
  have h2 : (l.logicalToPhysical r c).2 < l.width_ := by
    simp only [logicalToPhysical]
    exact toU32_wrapIndex_lt _ _ hw hw'
  refine ⟨h1, h2, ?_, ?_⟩
  · unfold EigenMatrix.coeffChecked
    rw [if_pos]
    · rfl
    · rw [hrows, hcols]; omega
  · unfold EigenMatrix.coeffChecked
    rw [if_pos]
    · simp [setValue, EigenMatrix.setCoeff]
    · show _ ∧ _ < ((l.data_.rows : Nat) : Int) ∧ _ ∧ _ < ((l.data_.cols : Nat) : Int)
      rw [hrows, hcols]; omega

/-- Witness for C9: the fresh 10x10 layer at the logical coordinate `(-1, -7)`. -/
theorem logicalToPhysical_in_range_witness :
    (0 < (GridLayer.new 10 10 (0 : Int)).height_ ∧
      (GridLayer.new 10 10 (0 : Int)).height_ < 4294967296) ∧
    ((GridLayer.new 10 10 (0 : Int)).logicalToPhysical (-1) (-7)).1
      < (GridLayer.new 10 10 (0 : Int)).height_ ∧
    ((GridLayer.new 10 10 (0 : Int)).logicalToPhysical (-1) (-7)).2
      < (GridLayer.new 10 10 (0 : Int)).width_ ∧
    (GridLayer.new 10 10 (0 : Int)).data_.coeffChecked
        ((GridLayer.new 10 10 (0 : Int)).logicalToPhysical (-1) (-7)).1
        ((GridLayer.new 10 10 (0 : Int)).logicalToPhysical (-1) (-7)).2
      = some ((GridLayer.new 10 10 (0 : Int)).getValue (-1) (-7)) ∧
    ((GridLayer.new 10 10 (0 : Int)).setValue (-1) (-7) 5).data_.coeffChecked
        ((GridLayer.new 10 10 (0 : Int)).logicalToPhysical (-1) (-7)).1
        ((GridLayer.new 10 10 (0 : Int)).logicalToPhysical (-1) (-7)).2
      = some 5 :=
  ⟨by decide,
   logicalToPhysical_in_range (GridLayer.new 10 10 (0 : Int)) (-1) (-7) 5
    (by decide) (by decide) (by decide) (by decide) rfl rfl⟩

/-- C10 as stated fails: a layer with 4294967295 rows and one column has positive
dimensions, and after the single call `moveLogicalOrigin(-2, 0)` its row offset is `-3`,
outside `[0, height)`. -/
theorem offset_invariant_fails_for_huge_height :
    0 < (GridLayer.new 1 4294967295 (0 : Int)).height_ ∧
    0 < (GridLayer.new 1 4294967295 (0 : Int)).width_ ∧
    ([LayerCall.moveLogicalOrigin (-2) 0].foldl (fun s call => LayerCall.run s call)
      (GridLayer.new 1 4294967295 (0 : Int))).logical_offset_row_ = -3 ∧
    ¬ OffsetInRange
      ([LayerCall.moveLogicalOrigin (-2) 0].foldl (fun s call => LayerCall.run s call)
        (GridLayer.new 1 4294967295 (0 : Int))) := by
  decide

/-- C10 amended (offset invariant): a GridLayer whose dimensions are positive and at most
`2^31` starts with offset `(0, 0)`, and after any finite sequence of `moveLogicalOrigin`,
`setValue`, `reset`, `getView` and `getValue` calls with arbitrary arguments its offset lies
in `[0, height) x [0, width)`. -/
theorem offset_invariant_of_int32_dims {T : Type} (width height : Nat) (initial_value : T)
    (calls : List (LayerCall T))
    (hw : 0 < width) (hw' : width ≤ 2147483648)
    (hh : 0 < height) (hh' : height ≤ 2147483648) :
    (GridLayer.new width height initial_value).logical_offset_row_ = 0 ∧
    (GridLayer.new width height initial_value).logical_offset_col_ = 0 ∧
    OffsetInRange
      (calls.foldl (fun s call => LayerCall.run s call)
        (GridLayer.new width height initial_value)) := by
  refine ⟨rfl, rfl, ?_⟩
  apply foldl_run_offsetInRange calls (GridLayer.new width height initial_value) hw hw' hh hh'
  have hrow : (0 : Int) < (height : Int) := by exact_mod_cast hh
  have hcol : (0 : Int) < (width : Int) := by exact_mod_cast hw
  exact ⟨le_refl 0, hrow, le_refl 0, hcol⟩

/-- Witness for C10 amended: a 10x10 layer under a sequence of calls of every kind. -/
theorem offset_invariant_of_int32_dims_witness :
    ((0 : Nat) < 10 ∧ (10 : Nat) ≤ 2147483648) ∧
    (GridLayer.new 10 10 (0 : Int)).logical_offset_row_ = 0 ∧
    (GridLayer.new 10 10 (0 : Int)).logical_offset_col_ = 0 ∧
    OffsetInRange
      ([LayerCall.moveLogicalOrigin (-1) 3, LayerCall.setValue 2 2 7, LayerCall.reset 1,
          LayerCall.getView 0 0 4 4, LayerCall.getValue (-5) 5,
          LayerCall.moveLogicalOrigin 25 (-40)].foldl
        (fun s call => LayerCall.run s call) (GridLayer.new 10 10 (0 : Int))) :=
  ⟨by decide,
   offset_invariant_of_int32_dims 10 10 (0 : Int)
    [LayerCall.moveLogicalOrigin (-1) 3, LayerCall.setValue 2 2 7, LayerCall.reset 1,
      LayerCall.getView 0 0 4 4, LayerCall.getValue (-5) 5,
      LayerCall.moveLogicalOrigin 25 (-40)]
    (by decide) (by decide) (by decide) (by decide)⟩

/-- C11 (layer independence): for every map state and two distinct layer names `a` and `b`,
`setCellValue(x, y, v, a)` and `resetLayer(a, v)` leave the layer stored under `b` unchanged
(storage, offset and fill value), so `getCellValue(x', y', b)` returns the same value as
before. -/
theorem layer_independence {D : Type} [WorldScalar D] [Zero T] (m : CircularGridMap D T)
    (a b : String) (x y x' y' : D) (v : T) (hab : a ≠ b) :
    (m.setCellValue x y v a).layers_ b = m.layers_ b ∧
    (m.resetLayer a v).layers_ b = m.layers_ b ∧
    (m.setCellValue x y v a).getCellValue x' y' b = m.getCellValue x' y' b ∧
    (m.resetLayer a v).getCellValue x' y' b = m.getCellValue x' y' b :=
  ⟨layers_setCellValue_of_ne m x y v a b hab, layers_resetLayer_of_ne m v a b hab,
   getCellValue_congr m _ x' y' b (layers_setCellValue_of_ne m x y v a b hab)
     (center_setCellValue m x y v a).1 (center_setCellValue m x y v a).2,
   getCellValue_congr m _ x' y' b (layers_resetLayer_of_ne m v a b hab)
     (center_resetLayer m v a).1 (center_resetLayer m v a).2⟩

/-- Witness for C11: in the map of the test before the move, writing to and resetting the
default layer leaves the obstacle layer as it is. -/
theorem layer_independence_witness :
    ("default" ≠ "obstacle") ∧
    (testMapBeforeMove.setCellValue 0 0 5 "default").layers_ "obstacle"
      = testMapBeforeMove.layers_ "obstacle" ∧
    (testMapBeforeMove.resetLayer "default" 5).layers_ "obstacle"
      = testMapBeforeMove.layers_ "obstacle" ∧
    (testMapBeforeMove.setCellValue 0 0 5 "default").getCellValue 2 2 "obstacle"
      = testMapBeforeMove.getCellValue 2 2 "obstacle" ∧
    (testMapBeforeMove.resetLayer "default" 5).getCellValue 2 2 "obstacle"
      = testMapBeforeMove.getCellValue 2 2 "obstacle" :=
  ⟨by decide, layer_independence testMapBeforeMove "default" "obstacle" 0 0 2 2 5 (by decide)⟩

/-- C12 (silent degradation on an unknown layer): for every map state and every name `n`
that is not a layer of the map, `getCellValue(x, y, n)` returns the zero value `T()`, and
`setCellValue(x, y, v, n)`, `resetLayer(n, v)` and `removeLayer(n)` leave the whole map
state unchanged. -/
theorem unknown_layer_degrades {D : Type} [WorldScalar D] [Zero T] (m : CircularGridMap D T)
    (n : String) (x y : D) (v : T) (hn : m.layers_ n = none) :
    m.getCellValue x y n = 0 ∧ m.setCellValue x y v n = m ∧ m.resetLayer n v = m ∧
    m.removeLayer n = m := by
  refine ⟨?_, ?_, ?_, ?_⟩
  · unfold CircularGridMap.getCellValue
    rw [hn]
  · unfold CircularGridMap.setCellValue
    rw [hn]
  · unfold CircularGridMap.resetLayer
    rw [hn]
  · unfold CircularGridMap.removeLayer
    have hfun : (fun name => if name = n then none else m.layers_ name) = m.layers_ := by
      funext name
      by_cases h : name = n
      · rw [if_pos h, h, hn]
      · rw [if_neg h]
    rw [hfun]

/-- Witness for C12: the name `missing` on the fresh 10x10 map. -/
theorem unknown_layer_degrades_witness :
    (CircularGridMap.new 10 10 0 : CircularGridMap ℚ ℚ).layers_ "missing" = none ∧
    (CircularGridMap.new 10 10 0 : CircularGridMap ℚ ℚ).getCellValue 1 2 "missing" = 0 ∧
    (CircularGridMap.new 10 10 0 : CircularGridMap ℚ ℚ).setCellValue 1 2 7 "missing"
      = (CircularGridMap.new 10 10 0 : CircularGridMap ℚ ℚ) ∧
    (CircularGridMap.new 10 10 0 : CircularGridMap ℚ ℚ).resetLayer "missing" 7
      = (CircularGridMap.new 10 10 0 : CircularGridMap ℚ ℚ) ∧
    (CircularGridMap.new 10 10 0 : CircularGridMap ℚ ℚ).removeLayer "missing"
      = (CircularGridMap.new 10 10 0 : CircularGridMap ℚ ℚ) :=
  ⟨rfl, unknown_layer_degrades (CircularGridMap.new 10 10 0 : CircularGridMap ℚ ℚ) "missing" 1 2 7
    rfl⟩

/-- C13 (addLayer is idempotent): if `n` is already a layer, `addLayer(n)` leaves the map
unchanged; if `n` is absent, the map gains under `n` a layer of the map's dimensions with
offset `(0, 0)`, fill value and every cell equal to the map's default fill value, while
every other layer and the other members of the map are unchanged; and `addLayer(n)` twice
gives the same state as `addLayer(n)` once. -/
theorem addLayer_idempotent {D : Type} (m : CircularGridMap D T) (n : String) :
    (∀ layer, m.layers_ n = some layer → m.addLayer n = m) ∧
    (m.layers_ n = none →
      (m.addLayer n).layers_ n = some (GridLayer.new m.width_ m.height_ m.initial_value_) ∧
      (GridLayer.new m.width_ m.height_ m.initial_value_).width_ = m.width_ ∧
      (GridLayer.new m.width_ m.height_ m.initial_value_).height_ = m.height_ ∧
      (GridLayer.new m.width_ m.height_ m.initial_value_).data_.rows = m.height_ ∧
      (GridLayer.new m.width_ m.height_ m.initial_value_).data_.cols = m.width_ ∧
      (GridLayer.new m.width_ m.height_ m.initial_value_).logical_offset_row_ = 0 ∧
      (GridLayer.new m.width_ m.height_ m.initial_value_).logical_offset_col_ = 0 ∧
      (GridLayer.new m.width_ m.height_ m.initial_value_).initial_value_ = m.initial_value_ ∧
      (∀ i j, (GridLayer.new m.width_ m.height_ m.initial_value_).data_.coeff i j
        = m.initial_value_) ∧
      (∀ other, other ≠ n → (m.addLayer n).layers_ other = m.layers_ other) ∧
      (m.addLayer n).width_ = m.width_ ∧ (m.addLayer n).height_ = m.height_ ∧
      (m.addLayer n).world_center_x_ = m.world_center_x_ ∧
      (m.addLayer n).world_center_y_ = m.world_center_y_ ∧
      (m.addLayer n).initial_value_ = m.initial_value_) ∧
    (m.addLayer n).addLayer n = m.addLayer n := by
  refine ⟨?_, ?_, ?_⟩
  · intro layer h
    unfold CircularGridMap.addLayer
    rw [h]
  · intro h
    unfold CircularGridMap.addLayer
    rw [h]
    refine ⟨if_pos rfl, rfl, rfl, rfl, rfl, rfl, rfl, rfl, fun _ _ => rfl, ?_, rfl, rfl, rfl,
      rfl, rfl⟩
    intro other ho
    exact if_neg ho
  · cases h : m.layers_ n with
    | some layer =>
      have h1 : m.addLayer n = m := by
        unfold CircularGridMap.addLayer
        rw [h]
      rw [h1, h1]
    | none =>
      have h1 : (m.addLayer n).layers_ n
          = some (GridLayer.new m.width_ m.height_ m.initial_value_) := by
        unfold CircularGridMap.addLayer
        rw [h]
        exact if_pos rfl
      generalize m.addLayer n = m1 at h1 ⊢
      unfold CircularGridMap.addLayer
      rw [h1]

/-- Witness for C13: on the fresh 10x10 map the name `default` is present and the name
`obstacle` is absent. -/
theorem addLayer_idempotent_witness :
    (CircularGridMap.new 10 10 0 : CircularGridMap ℚ ℚ).layers_ "default"
      = some (GridLayer.new 10 10 0) ∧
    (CircularGridMap.new 10 10 0 : CircularGridMap ℚ ℚ).addLayer "default"
      = (CircularGridMap.new 10 10 0 : CircularGridMap ℚ ℚ) ∧
    (CircularGridMap.new 10 10 0 : CircularGridMap ℚ ℚ).layers_ "obstacle" = none ∧
    ((CircularGridMap.new 10 10 0 : CircularGridMap ℚ ℚ).addLayer "obstacle").layers_ "obstacle"
      = some (GridLayer.new (CircularGridMap.new 10 10 0 : CircularGridMap ℚ ℚ).width_
          (CircularGridMap.new 10 10 0 : CircularGridMap ℚ ℚ).height_
          (CircularGridMap.new 10 10 0 : CircularGridMap ℚ ℚ).initial_value_) ∧
    ((CircularGridMap.new 10 10 0 : CircularGridMap ℚ ℚ).addLayer "obstacle").addLayer "obstacle"
      = (CircularGridMap.new 10 10 0 : CircularGridMap ℚ ℚ).addLayer "obstacle" :=
  ⟨rfl,
   (addLayer_idempotent (CircularGridMap.new 10 10 0 : CircularGridMap ℚ ℚ) "default").1
     (GridLayer.new 10 10 0) rfl,
   rfl,
   ((addLayer_idempotent (CircularGridMap.new 10 10 0 : CircularGridMap ℚ ℚ) "obstacle").2.1
     rfl).1,
   (addLayer_idempotent (CircularGridMap.new 10 10 0 : CircularGridMap ℚ ℚ) "obstacle").2.2⟩

/-- C14 (reset): for every layer state and value `v`, after `reset(v)` every cell of the
storage equals `v`, so `getValue(r, c) = v` for all `(r, c)`; the fill value is `v`; the
offset and the dimensions are unchanged; and a later shift uses `v` as fill value, so that
every cell still equals `v` after any `moveLogicalOrigin`. -/
theorem reset_overwrites (l : GridLayer T) (value : T) (r c i j d_row d_col : Int) :
    (l.reset value).data_.coeff i j = value ∧
    (l.reset value).getValue r c = value ∧
    (l.reset value).initial_value_ = value ∧
    (l.reset value).logical_offset_row_ = l.logical_offset_row_ ∧
    (l.reset value).logical_offset_col_ = l.logical_offset_col_ ∧
    (l.reset value).width_ = l.width_ ∧ (l.reset value).height_ = l.height_ ∧
    (l.reset value).data_.rows = l.data_.rows ∧ (l.reset value).data_.cols = l.data_.cols ∧
    ((l.reset value).moveLogicalOrigin d_row d_col).initial_value_ = value ∧
    ((l.reset value).moveLogicalOrigin d_row d_col).data_.coeff i j = value := by
  refine ⟨rfl, rfl, rfl, rfl, rfl, rfl, rfl, rfl, rfl, ?_, ?_⟩
  · rw [(moveLogicalOrigin_fields _ d_row d_col).2.2.2.2.2.2]
    rfl
  · exact moveLogicalOrigin_const (l.reset value) d_row d_col (fun _ _ => rfl) i j

/-- C15 (moveCenter updates the center and broadcasts one shift): after `moveCenter(dx, dy)`
the world center is `(old_x + dx, old_y + dy)`, a name is a layer after the call exactly when
it was one before, and the layer under every name is the result of
`moveLogicalOrigin(d_row = dx, d_col = dy)` on the layer that was there. -/
theorem moveCenter_broadcast (m : CircularGridMap ℚ T) (dx dy : Int) (name : String) :
    (m.moveCenter dx dy).world_center_x_ = m.world_center_x_ + (dx : ℚ) ∧
    (m.moveCenter dx dy).world_center_y_ = m.world_center_y_ + (dy : ℚ) ∧
    ((m.moveCenter dx dy).layers_ name).isSome = (m.layers_ name).isSome ∧
    (m.moveCenter dx dy).layers_ name
      = (m.layers_ name).map (fun layer => layer.moveLogicalOrigin dx dy) ∧
    (m.moveCenter dx dy).width_ = m.width_ ∧ (m.moveCenter dx dy).height_ = m.height_ ∧
    (m.moveCenter dx dy).initial_value_ = m.initial_value_ := by
  refine ⟨rfl, rfl, ?_, rfl, rfl, rfl, rfl⟩
  show ((m.layers_ name).map _).isSome = _
  cases m.layers_ name with
  | none => rfl
  | some layer => simp only [Option.map_some', Option.isSome_some]

/-- Witness for C15: from the center `(0, 0)` of the fresh 10x10 map, `moveCenter(3, 2)`
gives the center `(3, 2)`. -/
theorem moveCenter_broadcast_witness :
    ((CircularGridMap.new 10 10 0 : CircularGridMap ℚ ℚ).moveCenter 3 2).world_center_x_ = 3 ∧
    ((CircularGridMap.new 10 10 0 : CircularGridMap ℚ ℚ).moveCenter 3 2).world_center_y_ = 2 :=
  ⟨(moveCenter_broadcast (CircularGridMap.new 10 10 0 : CircularGridMap ℚ ℚ) 3 2 "default").1.trans
      (by with_unfolding_all rfl),
   (moveCenter_broadcast (CircularGridMap.new 10 10 0 : CircularGridMap ℚ ℚ) 3 2
      "default").2.1.trans (by with_unfolding_all rfl)⟩

/-- C16 (offset update of a shift), evaluated on the code.  On a fresh 10x10 layer (offset
`(0, 0)`) `moveLogicalOrigin(-1, 0)` stores the previous offset `(0, 0)` and leaves the
offset at `(5, 0)`, where the claim gives `((0 - 1) mod 10, 0 mod 10) = (9, 0)`. -/
theorem moveLogicalOrigin_negative_offset_on_10x10 :
    ((GridLayer.new 10 10 (0 : Int)).moveLogicalOrigin (-1) 0).logical_offset_row_ = 5 ∧
    ((GridLayer.new 10 10 (0 : Int)).moveLogicalOrigin (-1) 0).logical_offset_col_ = 0 ∧
    ((GridLayer.new 10 10 (0 : Int)).moveLogicalOrigin (-1) 0).prev_logical_offset_row_ = 0 ∧
    ((GridLayer.new 10 10 (0 : Int)).moveLogicalOrigin (-1) 0).prev_logical_offset_col_ = 0 ∧
    (((0 : Int) + (-1)) % 10, ((0 : Int) + 0) % 10) = (9, 0) := by
  decide

/-- C17 (world-to-logical translation truncates toward zero): with world coordinates as
exact rationals, for every map with center `(cx, cy)`, every existing layer `L` and every
world coordinate `(x, y)`, `getCellValue(x, y, L)` is the layer's
`getValue(trunc(y - cy), trunc(x - cx))` and `setCellValue(x, y, v, L)` replaces the layer by
its `setValue(trunc(y - cy), trunc(x - cx), v)`, where `trunc` rounds toward zero. -/
theorem world_to_logical_truncates [Zero T] (m : CircularGridMap ℚ T) (layer_name : String)
    (layer : GridLayer T) (world_x world_y : ℚ) (value : T)
    (hlayer : m.layers_ layer_name = some layer) :
    m.getCellValue world_x world_y layer_name =
      layer.getValue (truncTowardZero (world_y - m.world_center_y_))
        (truncTowardZero (world_x - m.world_center_x_)) ∧
    (m.setCellValue world_x world_y value layer_name).layers_ layer_name =
      some (layer.setValue (truncTowardZero (world_y - m.world_center_y_))
        (truncTowardZero (world_x - m.world_center_x_)) value) := by
  constructor
  · unfold CircularGridMap.getCellValue
    simp only [hlayer, toInt32_eq_truncTowardZero]
  · unfold CircularGridMap.setCellValue
    simp only [hlayer, toInt32_eq_truncTowardZero, if_true]

/-- Witness for C17: the world coordinate `(-1/2, -1/2)` on the fresh 10x10 map addresses
the logical cell `(0, 0)`; the floor of `-1/2` is `-1`. -/
theorem world_to_logical_truncates_witness :
    (truncTowardZero (-1 / 2) = 0 ∧ ⌊(-1 / 2 : ℚ)⌋ = -1) ∧
    (CircularGridMap.new 10 10 0 : CircularGridMap ℚ ℚ).getCellValue (-1 / 2) (-1 / 2) "default" =
      (GridLayer.new 10 10 (0 : ℚ)).getValue
        (truncTowardZero
          (-1 / 2 - (CircularGridMap.new 10 10 0 : CircularGridMap ℚ ℚ).world_center_y_))
        (truncTowardZero
          (-1 / 2 - (CircularGridMap.new 10 10 0 : CircularGridMap ℚ ℚ).world_center_x_)) ∧
    ((CircularGridMap.new 10 10 0 : CircularGridMap ℚ ℚ).setCellValue (-1 / 2) (-1 / 2) 7
        "default").layers_ "default" =
      some ((GridLayer.new 10 10 (0 : ℚ)).setValue
        (truncTowardZero
          (-1 / 2 - (CircularGridMap.new 10 10 0 : CircularGridMap ℚ ℚ).world_center_y_))
        (truncTowardZero
          (-1 / 2 - (CircularGridMap.new 10 10 0 : CircularGridMap ℚ ℚ).world_center_x_)) 7) :=
  ⟨⟨by unfold truncTowardZero; norm_num, by norm_num⟩,
   world_to_logical_truncates (CircularGridMap.new 10 10 0 : CircularGridMap ℚ ℚ) "default"
    (GridLayer.new 10 10 0) (-1 / 2) (-1 / 2) 7 rfl⟩

/-- C18 as stated fails: a layer with 4294967295 rows and one column, offset `(0, 0)` and the
value 7 in the cell `(0, 0)`.  After `moveLogicalOrigin(-2, 0)` the offset is `(-3, 0)`; the
row 0 is not in `[min(0, -3), max(0, -3))` and the column 0 is not in `[0, 0)`, yet the cell
`(0, 0)` holds the fill value 0. -/
theorem moveLogicalOrigin_huge_height_rewrites_outside_range :
    0 < ((GridLayer.new 1 4294967295 (0 : Int)).setValue 0 0 7).height_ ∧
    0 < ((GridLayer.new 1 4294967295 (0 : Int)).setValue 0 0 7).width_ ∧
    ((GridLayer.new 1 4294967295 (0 : Int)).setValue 0 0 7).logical_offset_row_ = 0 ∧
    ((GridLayer.new 1 4294967295 (0 : Int)).setValue 0 0 7).logical_offset_col_ = 0 ∧
    (((GridLayer.new 1 4294967295 (0 : Int)).setValue 0 0 7).moveLogicalOrigin
      (-2) 0).logical_offset_row_ = -3 ∧
    (((GridLayer.new 1 4294967295 (0 : Int)).setValue 0 0 7).moveLogicalOrigin
      (-2) 0).logical_offset_col_ = 0 ∧
    ¬ ((min (0 : Int) (-3) ≤ 0 ∧ (0 : Int) < max 0 (-3)) ∨
        (min (0 : Int) 0 ≤ 0 ∧ (0 : Int) < max 0 0)) ∧
    ((GridLayer.new 1 4294967295 (0 : Int)).setValue 0 0 7).data_.coeff 0 0 = 7 ∧
    (((GridLayer.new 1 4294967295 (0 : Int)).setValue 0 0 7).moveLogicalOrigin
      (-2) 0).data_.coeff 0 0 = 0 := by
  decide

/-- C18 amended (exact set of cells a shift rewrites): for every layer whose dimensions are
positive and at most `2^31` and whose offset lies in `[0, height) x [0, width)`, and every
`(d_row, d_col)`, writing `p` for the offset before and `n` for the offset after
`moveLogicalOrigin(d_row, d_col)`, a cell `(i, j)` holds the fill value after the call when
`min(p_row, n_row) ≤ i < max(p_row, n_row)` or `min(p_col, n_col) ≤ j < max(p_col, n_col)`,
and keeps its value otherwise; both index ranges lie inside the array, so they do not
wrap. -/
theorem moveLogicalOrigin_rewrites_exactly (l : GridLayer T) (d_row d_col : Int)
    (hh0 : 0 < l.height_) (hh : l.height_ ≤ 2147483648)
    (hw0 : 0 < l.width_) (hw : l.width_ ≤ 2147483648)
    (hoff : OffsetInRange l) (i j : Int) :
    ((l.moveLogicalOrigin d_row d_col).data_.coeff i j =
      if (min l.logical_offset_row_ (l.moveLogicalOrigin d_row d_col).logical_offset_row_ ≤ i ∧
            i < max l.logical_offset_row_ (l.moveLogicalOrigin d_row d_col).logical_offset_row_) ∨
          (min l.logical_offset_col_ (l.moveLogicalOrigin d_row d_col).logical_offset_col_ ≤ j ∧
            j < max l.logical_offset_col_ (l.moveLogicalOrigin d_row d_col).logical_offset_col_)
      then l.initial_value_ else l.data_.coeff i j) ∧
    0 ≤ min l.logical_offset_row_ (l.moveLogicalOrigin d_row d_col).logical_offset_row_ ∧
    max l.logical_offset_row_ (l.moveLogicalOrigin d_row d_col).logical_offset_row_
      < l.height_ ∧
    0 ≤ min l.logical_offset_col_ (l.moveLogicalOrigin d_row d_col).logical_offset_col_ ∧
    max l.logical_offset_col_ (l.moveLogicalOrigin d_row d_col).logical_offset_col_
      < l.width_ := by
  have hf := moveLogicalOrigin_fields l d_row d_col
  have hr := wrapIndex_range (toI32 (l.logical_offset_row_ + d_row)) l.height_ hh0 hh
  have hc := wrapIndex_range (toI32 (l.logical_offset_col_ + d_col)) l.width_ hw0 hw
  refine ⟨moveLogicalOrigin_coeff l d_row d_col hh0 hh hw0 hw hoff i j, ?_, ?_, ?_, ?_⟩
  · rw [hf.2.2.1]; exact le_min hoff.1 hr.1
  · rw [hf.2.2.1]; exact max_lt hoff.2.1 hr.2
  · rw [hf.2.2.2.1]; exact le_min hoff.2.2.1 hc.1
  · rw [hf.2.2.2.1]; exact max_lt hoff.2.2.2 hc.2

/-- Witness for C18 amended: the 10x10 layer at offset `(8, 0)` under
`moveLogicalOrigin(3, 0)`, at the cell `(1, 0)`. -/
theorem moveLogicalOrigin_rewrites_exactly_witness :
    (0 < layerAtRowOffset8.height_ ∧ layerAtRowOffset8.height_ ≤ 2147483648 ∧
      0 < layerAtRowOffset8.width_ ∧ layerAtRowOffset8.width_ ≤ 2147483648 ∧
      OffsetInRange layerAtRowOffset8) ∧
    ((layerAtRowOffset8.moveLogicalOrigin 3 0).data_.coeff 1 0 =
      if (min layerAtRowOffset8.logical_offset_row_
              (layerAtRowOffset8.moveLogicalOrigin 3 0).logical_offset_row_ ≤ 1 ∧
            1 < max layerAtRowOffset8.logical_offset_row_
              (layerAtRowOffset8.moveLogicalOrigin 3 0).logical_offset_row_) ∨
          (min layerAtRowOffset8.logical_offset_col_
              (layerAtRowOffset8.moveLogicalOrigin 3 0).logical_offset_col_ ≤ 0 ∧
            0 < max layerAtRowOffset8.logical_offset_col_
              (layerAtRowOffset8.moveLogicalOrigin 3 0).logical_offset_col_)
      then layerAtRowOffset8.initial_value_ else layerAtRowOffset8.data_.coeff 1 0) ∧
    0 ≤ min layerAtRowOffset8.logical_offset_row_
      (layerAtRowOffset8.moveLogicalOrigin 3 0).logical_offset_row_ ∧
    max layerAtRowOffset8.logical_offset_row_
      (layerAtRowOffset8.moveLogicalOrigin 3 0).logical_offset_row_
      < layerAtRowOffset8.height_ ∧
    0 ≤ min layerAtRowOffset8.logical_offset_col_
      (layerAtRowOffset8.moveLogicalOrigin 3 0).logical_offset_col_ ∧
    max layerAtRowOffset8.logical_offset_col_
      (layerAtRowOffset8.moveLogicalOrigin 3 0).logical_offset_col_
      < layerAtRowOffset8.width_ :=
  ⟨by decide,
   moveLogicalOrigin_rewrites_exactly layerAtRowOffset8 3 0 (by decide) (by decide) (by decide)
    (by decide) (by decide) 1 0⟩

/-- C19 (a shift and its opposite restore the origin), evaluated on the code.  On a fresh
10x10 layer (offset `(0, 0)`) `moveLogicalOrigin(-1, 0)` followed by `moveLogicalOrigin(1, 0)`
leaves the row offset at 6; at offset `(8, 0)`, `moveLogicalOrigin(3, 0)` followed by
`moveLogicalOrigin(-3, 0)` leaves the row offset at 4. -/
theorem moveLogicalOrigin_and_opposite_on_10x10 :
    (GridLayer.new 10 10 (0 : Int)).logical_offset_row_ = 0 ∧
    ((GridLayer.new 10 10 (0 : Int)).moveLogicalOrigin (-1) 0).logical_offset_row_ = 5 ∧
    (((GridLayer.new 10 10 (0 : Int)).moveLogicalOrigin (-1) 0).moveLogicalOrigin
      1 0).logical_offset_row_ = 6 ∧
    layerAtRowOffset8.logical_offset_row_ = 8 ∧
    (layerAtRowOffset8.moveLogicalOrigin 3 0).logical_offset_row_ = 1 ∧
    ((layerAtRowOffset8.moveLogicalOrigin 3 0).moveLogicalOrigin (-3) 0).logical_offset_row_
      = 4 := by
  decide

/-- C20 (layer-level write/read and frame): after `setValue(r, c, v)`, `getValue(r, c)`
returns `v`; every storage cell other than the one at `logicalToPhysical(r, c)` keeps its
value; `getValue(r', c')` is unchanged for every `(r', c')` that resolves to another physical
cell; and the offset, the fill value and the dimensions are unchanged. -/
theorem setValue_frame (l : GridLayer T) (r c : Int) (v : T) :
    (l.setValue r c v).getValue r c = v ∧
    (∀ i j : Int, ¬ (i = ((l.logicalToPhysical r c).1 : Int) ∧
        j = ((l.logicalToPhysical r c).2 : Int)) →
      (l.setValue r c v).data_.coeff i j = l.data_.coeff i j) ∧
    (∀ r' c' : Int, l.logicalToPhysical r' c' ≠ l.logicalToPhysical r c →
      (l.setValue r c v).getValue r' c' = l.getValue r' c') ∧
    (l.setValue r c v).logical_offset_row_ = l.logical_offset_row_ ∧
    (l.setValue r c v).logical_offset_col_ = l.logical_offset_col_ ∧
    (l.setValue r c v).initial_value_ = l.initial_value_ ∧
    (l.setValue r c v).width_ = l.width_ ∧ (l.setValue r c v).height_ = l.height_ := by
  refine ⟨getValue_setValue l r c v, ?_, ?_, rfl, rfl, rfl, rfl, rfl⟩
  · intro i j hij
    rw [data_setValue, coeff_setCoeff, if_neg hij]
  · intro r' c' hne
    unfold getValue
    rw [logicalToPhysical_setValue, data_setValue, coeff_setCoeff, if_neg]
    intro h
    apply hne
    have h1 : (l.logicalToPhysical r' c').1 = (l.logicalToPhysical r c).1 := by exact_mod_cast h.1
    have h2 : (l.logicalToPhysical r' c').2 = (l.logicalToPhysical r c).2 := by exact_mod_cast h.2
    exact Prod.ext h1 h2

/-- Witness for C20: on the fresh 10x10 layer, writing 5 at the logical cell `(-1, -7)`
leaves the value read at `(0, 0)`, which resolves to another physical cell. -/
theorem setValue_frame_witness :
    (GridLayer.new 10 10 (0 : Int)).logicalToPhysical 0 0
      ≠ (GridLayer.new 10 10 (0 : Int)).logicalToPhysical (-1) (-7) ∧
    ((GridLayer.new 10 10 (0 : Int)).setValue (-1) (-7) 5).getValue (-1) (-7) = 5 ∧
    ((GridLayer.new 10 10 (0 : Int)).setValue (-1) (-7) 5).getValue 0 0
      = (GridLayer.new 10 10 (0 : Int)).getValue 0 0 :=
  ⟨by decide,
   (setValue_frame (GridLayer.new 10 10 (0 : Int)) (-1) (-7) 5).1,
   (setValue_frame (GridLayer.new 10 10 (0 : Int)) (-1) (-7) 5).2.2.1 0 0 (by decide)⟩

end EfficientGridMap
